import Mathlib

/-!
Verification of the Taskade-Tower pass-through service repository.

The repository wraps several SaaS vendor APIs (Cloudflare, Hugging Face,
Google Docs, GitLab, Gemini, Taskade) behind Express route handlers.  This
development shallowly embeds the service-class methods and the route
handlers as pure Lean functions: vendor SDK calls become queries to an
explicit oracle, each call is recorded in a trace, and console logging is
recorded in a log list.  JavaScript values flowing through request bodies
and vendor responses are modelled by a small JSON type, with `Option Json`
standing for possibly-`undefined` values and JS truthiness made explicit.
-/

/-- Type of JSON values (the shape of request bodies, vendor responses and
route responses in the JavaScript source).  Objects are association lists
in insertion order. -/
inductive Json where
  | null : Json
  | bool (b : Bool) : Json
  | num (n : Int) : Json
  | str (s : String) : Json
  | arr (xs : List Json) : Json
  | obj (fields : List (String × Json)) : Json

/-- A possibly-`undefined` JavaScript value: `none` models `undefined`. -/
def JsVal : Type := Option Json

/-- First binding of a key in an object's field list. -/
def lookupField : List (String × Json) → String → JsVal
  | [], _ => none
  | (k1, v) :: rest, k => if k1 = k then some v else lookupField rest k

/-- Property lookup `o[k]` on a JSON value: first matching key of an
object, `undefined` otherwise (as in JavaScript member access on
non-objects we only ever apply it to objects). -/
def jsGet : Json → String → JsVal
  | .obj fields, k => lookupField fields k
  | _, _ => none

/-- Array index access `a[i]`. -/
def jsIndex : Json → Nat → JsVal
  | .arr xs, i => xs.get? i
  | _, _ => none

/-- JavaScript truthiness of a defined value. -/
def jsTruthy : Json → Bool
  | .null => false
  | .bool b => b
  | .num n => n != 0
  | .str s => s != ""
  | .arr _ => true
  | .obj _ => true

/-- JavaScript truthiness of a possibly-`undefined` value. -/
def jsvTruthy : JsVal → Bool
  | none => false
  | some j => jsTruthy j

/-- JavaScript `a || b` for a possibly-`undefined` `a`. -/
def jsOrElse (a : JsVal) (b : Json) : Json :=
  match a with
  | some j => if jsTruthy j then j else b
  | none => b

/-- Display form of a JSON value when interpolated into a template
string. -/
def jsToDisplayString : Json → String
  | .null => "null"
  | .bool b => if b then "true" else "false"
  | .num n => toString n
  | .str s => s
  | .arr _ => "[array]"
  | .obj _ => "[object Object]"

/-- Display form of a possibly-`undefined` value in a template string. -/
def jsvDisplayString : JsVal → String
  | none => "undefined"
  | some j => jsToDisplayString j

/-! ### Google Docs document model

The model of the documents traversed by
`GoogleDocsService.extractTextContent` (src/google-docs-service.js):
structural elements are paragraphs (lists of paragraph elements, some of
which are text runs) or tables, whose rows are lists of cells, each cell
holding nested structural content. -/
/-- Element of a paragraph: either a text run carrying content, or some
other element kind (equation, inline object, ...), which the extractor
skips. -/
inductive ParagraphElement where
  | textRun (content : String) : ParagraphElement
  | otherElement : ParagraphElement

/-- Structural element of a document body: a paragraph, a table (rows of
cells of nested content), or any other kind (section break, table of
contents, ...), which the extractor skips. -/
inductive StructuralElement where
  | paragraph (elements : List ParagraphElement) : StructuralElement
  | table (tableRows : List (List (List StructuralElement))) : StructuralElement
  | otherStructural : StructuralElement

/-- Document body: its `content` list may be absent. -/
structure DocBody where
  content : Option (List StructuralElement)

/-- A document as seen by the extractor: the `body` may be absent. -/
structure Document where
  body : Option DocBody

mutual

/-- Embeds the inner closure `extractFromContent` of
`GoogleDocsService.extractTextContent`: the accumulator argument models
the `text` variable the closure mutates. -/
def extractFromContent : List StructuralElement → String → String
  | [], text => text
  | e :: rest, text => extractFromContent rest (extractFromElement e text)

/-- One iteration of the `content.forEach` loop of `extractFromContent`:
paragraphs contribute their text runs, tables recurse into cells, other
elements contribute nothing. -/
def extractFromElement : StructuralElement → String → String
  | .paragraph elems, text => extractFromParagraph elems text
  | .table rows, text => extractFromRows rows text
  | .otherStructural, text => text

/-- The `paragraph.elements.forEach` loop: appends each text run's
content. -/
def extractFromParagraph : List ParagraphElement → String → String
  | [], text => text
  | .textRun c :: rest, text => extractFromParagraph rest (text ++ c)
  | .otherElement :: rest, text => extractFromParagraph rest text

/-- The `table.tableRows.forEach` loop. -/
def extractFromRows : List (List (List StructuralElement)) → String → String
  | [], text => text
  | row :: rest, text => extractFromRows rest (extractFromCells row text)

/-- The `row.tableCells.forEach` loop: recurses into each cell's
content. -/
def extractFromCells : List (List StructuralElement) → String → String
  | [], text => text
  | cell :: rest, text => extractFromCells rest (extractFromContent cell text)

end

/-- Embeds `GoogleDocsService.extractTextContent`: runs the traversal
when `doc.body && doc.body.content` holds, otherwise leaves `text` at its
initial empty value. -/
def GoogleDocsService.extractTextContent (doc : Document) : String :=
  match doc.body with
  | some b =>
    match b.content with
    | some c => extractFromContent c ""
    | none => ""
  | none => ""

mutual

/-- Specification-side text of a content list: the concatenation, in
document order, of the text of each element. -/
def specContentText : List StructuralElement → String
  | [] => ""
  | e :: rest => specElementText e ++ specContentText rest

/-- Specification-side text of one structural element. -/
def specElementText : StructuralElement → String
  | .paragraph elems => specParagraphText elems
  | .table rows => specRowsText rows
  | .otherStructural => ""

/-- Specification-side text of a paragraph: the concatenation of the
content of every text run. -/
def specParagraphText : List ParagraphElement → String
  | [] => ""
  | .textRun c :: rest => c ++ specParagraphText rest
  | .otherElement :: rest => specParagraphText rest

/-- Specification-side text of a table's rows. -/
def specRowsText : List (List (List StructuralElement)) → String
  | [] => ""
  | row :: rest => specCellsText row ++ specRowsText rest

/-- Specification-side text of one row's cells. -/
def specCellsText : List (List StructuralElement) → String
  | [] => ""
  | cell :: rest => specContentText cell ++ specCellsText rest

end

/-- Modelled from the spec: the claimed behaviour of `extractTextContent`
as a whole — concatenation in document order of every text run inside
paragraphs, recursing into table cells, and the empty string when the
document has no body or no body content. -/
def specExtractTextContent (doc : Document) : String :=
  match doc.body with
  | some b =>
    match b.content with
    | some c => specContentText c
    | none => ""
  | none => ""

/-! ### Vendor calls, errors, traces

Every service method wraps one or more vendor SDK / HTTP calls in a
try/catch that logs and rethrows.  A method run is embedded as a function
of an oracle giving each vendor call's outcome; the run returns the
method's result (`Except` models throw), the trace of vendor calls made,
and the list of `console.error` log lines emitted. -/
/-- Identifier of a vendor SDK / HTTP operation invoked by the embedded
services. -/
inductive VendorOp where
  | cfZonesBrowse
  | cfDnsRecordsAdd
  | cfZonesPurgeCache
  | hfSummarization
  | glUsersCurrent
  | glRepositoryFilesShow
  | glRepositoryFilesEdit
  | glRepositoryFilesCreate
  | gmGenerateContent
  | gdDocumentsCreate
  | gdPermissionsCreate
  | gdDocumentsBatchUpdate
  | taskadeRequest (method : String) (url : String)
deriving DecidableEq

/-- An error thrown by a vendor call: its message, and — for axios-style
HTTP errors — the optional `error.response.status` and
`error.response.data`. -/
structure VendorError where
  message : String
  responseStatus : Option Nat
  responseData : JsVal

/-- A recorded vendor call: which operation, the argument object built by
the service method, and the outcome the oracle returned. -/
structure Call where
  op : VendorOp
  args : Json
  result : Except VendorError Json

/-- Oracle giving the outcome of each vendor call. -/
def Oracle : Type := VendorOp → Json → Except VendorError Json

/-- Outcome of running a service method: the value returned or error
thrown, the vendor calls made (in order), and the log lines emitted. -/
structure MRes (α : Type) where
  result : Except VendorError α
  calls : List Call
  log : List String

/-- Whether a recorded call failed. -/
def Call.failed (c : Call) : Bool :=
  match c.result with
  | .ok _ => false
  | .error _ => true

/-- The TypeError JavaScript raises when a property is read off
`undefined`. -/
def typeErrorUndefined : VendorError :=
  ⟨"TypeError: Cannot read properties of undefined", none, none⟩

/-- JavaScript object spread `\x7b...a, ...b\x7d` for two objects: keys
of `a` not overridden by `b`, then the keys of `b`. -/
def jsSpreadMerge (a b : Json) : Json :=
  match a, b with
  | .obj fa, .obj fb =>
    Json.obj ((fa.filter (fun p => ((fb.find? (fun q => q.1 = p.1)).isNone : Bool))) ++ fb)
  | .obj fa, _ => Json.obj fa
  | _, _ => a

/-- The shape every one-call service method shares: build a request
object, call the vendor, return a projection of the response, and on
failure log one line and rethrow the original error unchanged. -/
def vendorUnit (op : VendorOp) (args : Json) (project : Json → JsVal)
    (logmsg : String) (o : Oracle) : MRes JsVal :=
  match o op args with
  | .ok r => ⟨.ok (project r), [⟨op, args, .ok r⟩], []⟩
  | .error e => ⟨.error e, [⟨op, args, .error e⟩], [logmsg]⟩

/-! ### CloudflareService (src/unnamed/part_000, first module) -/
/-- Embeds `CloudflareService.getZones`: calls `cf.zones.browse()` and
returns `zones.result`; on failure logs and rethrows. -/
def CloudflareService.getZones (o : Oracle) : MRes JsVal :=
  vendorUnit .cfZonesBrowse Json.null (fun zones => jsGet zones "result")
    "Error fetching zones:" o

/-- Embeds `CloudflareService.createDNSRecord`: calls
`cf.dnsRecords.add(zoneId, recordData)` and returns `record.result`; on
failure logs and rethrows. -/
def CloudflareService.createDNSRecord (zoneId : String) (recordData : Json)
    (o : Oracle) : MRes JsVal :=
  vendorUnit .cfDnsRecordsAdd (Json.arr [Json.str zoneId, recordData])
    (fun record => jsGet record "result") "Error creating DNS record:" o

/-- The request body `CloudflareService.purgeCache` builds:
`files ? \x7bfiles\x7d : \x7bpurge_everything: true\x7d`. -/
def purgeCacheData (files : JsVal) : Json :=
  match files with
  | some f =>
    if jsTruthy f then Json.obj [("files", f)]
    else Json.obj [("purge_everything", Json.bool true)]
  | none => Json.obj [("purge_everything", Json.bool true)]

/-- Embeds `CloudflareService.purgeCache`: builds the purge body from the
`files` argument, calls `cf.zones.purgeCache(zoneId, data)` and returns
`result.result`; on failure logs and rethrows. -/
def CloudflareService.purgeCache (zoneId : String) (files : JsVal)
    (o : Oracle) : MRes JsVal :=
  vendorUnit .cfZonesPurgeCache (Json.arr [Json.str zoneId, purgeCacheData files])
    (fun result => jsGet result "result") "Error purging cache:" o

/-! ### HuggingFaceService (src/unnamed/part_000, second module) -/
/-- Embeds `HuggingFaceService.summarizeText`: merges the default
parameters with the caller's, calls `hf.summarization(...)` and returns
`result[0].summary_text`; on failure logs and rethrows.  Reading
`summary_text` off an absent `result[0]` raises a TypeError, which the
catch block logs and rethrows like any other error. -/
def HuggingFaceService.summarizeText (text modelName : String)
    (parameters : Json) (o : Oracle) : MRes JsVal :=
  let defaultParams := jsSpreadMerge
    (Json.obj [("max_length", Json.num 130), ("min_length", Json.num 30)]) parameters
  let args := Json.obj [("model", Json.str modelName), ("inputs", Json.str text),
    ("parameters", defaultParams)]
  match o .hfSummarization args with
  | .ok result =>
    match jsIndex result 0 with
    | some first =>
      ⟨.ok (jsGet first "summary_text"), [⟨.hfSummarization, args, .ok result⟩], []⟩
    | none =>
      ⟨.error typeErrorUndefined, [⟨.hfSummarization, args, .ok result⟩],
        ["Error summarizing text:"]⟩
  | .error e =>
    ⟨.error e, [⟨.hfSummarization, args, .error e⟩], ["Error summarizing text:"]⟩

/-! ### GitlabService (src/gitlab-service.js) -/
/-- Embeds `GitlabService.getCurrentUser`: calls `api.Users.current()`
and returns the value unchanged; on failure logs and rethrows. -/
def GitlabService.getCurrentUser (o : Oracle) : MRes JsVal :=
  vendorUnit .glUsersCurrent Json.null (fun user => some user)
    "Error fetching current user:" o

/-- Embeds `GitlabService.createOrUpdateFile`: probes the file with
`RepositoryFiles.show`; on success edits it, and the inner catch turns
any failure of show or edit into a `RepositoryFiles.create` attempt; the
outer catch logs and rethrows whatever escapes. -/
def GitlabService.createOrUpdateFile (projectId filePath content commitMessage branch : String)
    (o : Oracle) : MRes JsVal :=
  let fileData := Json.obj [("file_path", Json.str filePath), ("branch", Json.str branch),
    ("content", Json.str content), ("commit_message", Json.str commitMessage)]
  let showArgs := Json.arr [Json.str projectId, Json.str filePath, Json.str branch]
  let editArgs := Json.arr [Json.str projectId, Json.str filePath, fileData]
  let createArgs := Json.arr [Json.str projectId, Json.str filePath, fileData]
  match o .glRepositoryFilesShow showArgs with
  | .ok showResp =>
    match o .glRepositoryFilesEdit editArgs with
    | .ok result =>
      ⟨.ok (some result),
        [⟨.glRepositoryFilesShow, showArgs, .ok showResp⟩,
         ⟨.glRepositoryFilesEdit, editArgs, .ok result⟩], []⟩
    | .error e1 =>
      match o .glRepositoryFilesCreate createArgs with
      | .ok result =>
        ⟨.ok (some result),
          [⟨.glRepositoryFilesShow, showArgs, .ok showResp⟩,
           ⟨.glRepositoryFilesEdit, editArgs, .error e1⟩,
           ⟨.glRepositoryFilesCreate, createArgs, .ok result⟩], []⟩
      | .error e2 =>
        ⟨.error e2,
          [⟨.glRepositoryFilesShow, showArgs, .ok showResp⟩,
           ⟨.glRepositoryFilesEdit, editArgs, .error e1⟩,
           ⟨.glRepositoryFilesCreate, createArgs, .error e2⟩],
          ["Error creating/updating file:"]⟩
  | .error e0 =>
    match o .glRepositoryFilesCreate createArgs with
    | .ok result =>
      ⟨.ok (some result),
        [⟨.glRepositoryFilesShow, showArgs, .error e0⟩,
         ⟨.glRepositoryFilesCreate, createArgs, .ok result⟩], []⟩
    | .error e2 =>
      ⟨.error e2,
        [⟨.glRepositoryFilesShow, showArgs, .error e0⟩,
         ⟨.glRepositoryFilesCreate, createArgs, .error e2⟩],
        ["Error creating/updating file:"]⟩

/-! ### GeminiService (src/gemini-service.js) -/
/-- Embeds `GeminiService.generateContent`: calls
`model.generateContent(prompt)` and returns `response.text()` (the oracle
returns the text value); on failure logs and rethrows. -/
def GeminiService.generateContent (prompt : String) (o : Oracle) : MRes JsVal :=
  vendorUnit .gmGenerateContent (Json.str prompt) (fun resp => some resp)
    "Error generating content:" o

/-- The prompt `GeminiService.analyzeContent` builds from its
`analysisType` switch. -/
def GeminiService.analysisPrompt (text : String) (analysisType : Json) : String :=
  match analysisType with
  | .str "summary" =>
    "Please provide a concise summary of the following text:\n\n" ++ text
  | .str "sentiment" =>
    "Analyze the sentiment of the following text and classify it as positive, negative, or neutral. Provide a brief explanation:\n\n" ++ text
  | .str "keywords" =>
    "Extract the main keywords and key phrases from the following text:\n\n" ++ text
  | .str "improve" =>
    "Please improve the following text by making it clearer, more concise, and better structured:\n\n" ++ text
  | _ => "Analyze the following text:\n\n" ++ text

/-- Embeds `GeminiService.analyzeContent`: builds the analysis prompt and
calls the model; on failure logs and rethrows. -/
def GeminiService.analyzeContent (text : String) (analysisType : Json)
    (o : Oracle) : MRes JsVal :=
  vendorUnit .gmGenerateContent
    (Json.str (GeminiService.analysisPrompt text analysisType))
    (fun resp => some resp) "Error analyzing content:" o

/-- The length guide `GeminiService.generateDocumentContent` selects. -/
def GeminiService.lengthGuide : Json → String
  | .str "short" => "Keep it brief, around 200-300 words."
  | .str "medium" => "Make it moderately detailed, around 500-800 words."
  | .str "long" => "Create a comprehensive piece, around 1000-1500 words."
  | _ => "Use appropriate length for the content."

/-- The document prompt `GeminiService.generateDocumentContent` builds. -/
def GeminiService.documentPrompt (topic contentType : Json) (length : Json) : String :=
  "Create a well-structured " ++ jsToDisplayString contentType ++ " about \"" ++
    jsToDisplayString topic ++ "\". " ++ GeminiService.lengthGuide length ++
    " \n      \n      Please include:\n      - A compelling title\n      - Clear headings and subheadings\n      - Well-organized content\n      - A proper conclusion\n      \n      Format it as clean text that can be easily inserted into a Google Doc."

/-- Embeds `GeminiService.generateDocumentContent`: builds the topic
prompt with the length guide and calls the model; on failure logs and
rethrows. -/
def GeminiService.generateDocumentContent (topic contentType : Json) (length : Json)
    (o : Oracle) : MRes JsVal :=
  vendorUnit .gmGenerateContent
    (Json.str (GeminiService.documentPrompt topic contentType length))
    (fun resp => some resp) "Error generating document content:" o

/-! ### GoogleDocsService (src/google-docs-service.js)

The class body defines `createDocument` twice.  Both bodies are embedded,
together with the JavaScript class-body rule that a later definition of
the same method name replaces an earlier one. -/
/-- Embeds the first class-body definition of
`GoogleDocsService.createDocument` (the one that also grants public
reader access through `drive.permissions.create`). -/
def GoogleDocsService.createDocumentFirstDef (title : Json) (o : Oracle) : MRes JsVal :=
  let args := Json.obj [("requestBody", Json.obj [("title", title)])]
  match o .gdDocumentsCreate args with
  | .error e =>
    ⟨.error e, [⟨.gdDocumentsCreate, args, .error e⟩], ["Error creating document:"]⟩
  | .ok resp =>
    match jsGet resp "data" with
    | none =>
      ⟨.error typeErrorUndefined, [⟨.gdDocumentsCreate, args, .ok resp⟩],
        ["Error creating document:"]⟩
    | some d =>
      let permArgs := Json.obj [("fileId", jsOrElse (jsGet d "documentId") Json.null),
        ("requestBody", Json.obj [("role", Json.str "reader"), ("type", Json.str "anyone")])]
      match o .gdPermissionsCreate permArgs with
      | .ok permResp =>
        ⟨.ok (some d),
          [⟨.gdDocumentsCreate, args, .ok resp⟩,
           ⟨.gdPermissionsCreate, permArgs, .ok permResp⟩], []⟩
      | .error e =>
        ⟨.error e,
          [⟨.gdDocumentsCreate, args, .ok resp⟩,
           ⟨.gdPermissionsCreate, permArgs, .error e⟩],
          ["Error creating document:"]⟩

/-- Embeds the second class-body definition of
`GoogleDocsService.createDocument`: create the document, return
`response.data`, no permission call; on failure logs and rethrows. -/
def GoogleDocsService.createDocumentLastDef (title : Json) (o : Oracle) : MRes JsVal :=
  vendorUnit .gdDocumentsCreate (Json.obj [("requestBody", Json.obj [("title", title)])])
    (fun resp => jsGet resp "data") "Error creating document:" o

/-- Shape shared by the two `createDocument` class-body definitions. -/
def GDocMethodImpl : Type := Json → Oracle → MRes JsVal

/-- The class-body entries named `createDocument`, in source order
(src/google-docs-service.js lines 33 and 152). -/
def gdocCreateDocumentDefs : List (String × GDocMethodImpl) :=
  [("createDocument", GoogleDocsService.createDocumentFirstDef),
   ("createDocument", GoogleDocsService.createDocumentLastDef)]

/-- JavaScript class-body semantics: a later method definition with the
same name replaces an earlier one, so the effective method is the last
entry with that name. -/
def resolveClassMethod (table : List (String × GDocMethodImpl)) (name : String) :
    Option GDocMethodImpl :=
  ((table.filter (fun p => p.1 = name)).getLast?).map (·.2)

/-- The effective `GoogleDocsService.createDocument` method of the class
(the second class-body definition, which shadows the first). -/
def GoogleDocsService.createDocument : GDocMethodImpl :=
  GoogleDocsService.createDocumentLastDef

/-- Embeds `GoogleDocsService.updateDocument`: calls
`docs.documents.batchUpdate` and returns `response.data`; on failure logs
and rethrows. -/
def GoogleDocsService.updateDocument (documentId : Json) (requests : Json)
    (o : Oracle) : MRes JsVal :=
  vendorUnit .gdDocumentsBatchUpdate (Json.obj [("documentId", documentId),
    ("requestBody", Json.obj [("requests", requests)])])
    (fun resp => jsGet resp "data") "Error updating document:" o

/-- Embeds `GoogleDocsService.insertText`: builds the single insertText
request at index 1 and delegates to `updateDocument`; its catch block
logs before rethrowing. -/
def GoogleDocsService.insertText (documentId : Json) (text : Json)
    (o : Oracle) : MRes JsVal :=
  let requests := Json.arr [Json.obj [("insertText",
    Json.obj [("location", Json.obj [("index", Json.num 1)]), ("text", text)])]]
  let inner := GoogleDocsService.updateDocument documentId requests o
  match inner.result with
  | .ok r => ⟨.ok r, inner.calls, inner.log⟩
  | .error e => ⟨.error e, inner.calls, inner.log ++ ["Error inserting text:"]⟩

/-! ### Route handlers (src/index.js)

Each Express handler is embedded as a function from its inputs (module
state such as service availability and environment variables, the request
parameters/body) and the vendor oracle to the HTTP response it sends,
together with the vendor calls made and the log lines emitted. -/
/-- An HTTP response produced by a handler, with the vendor-call trace
and the log lines of the whole request. -/
structure HandlerOutput where
  status : Nat
  body : Json
  calls : List Call
  log : List String

/-- The `\x7berror: message\x7d` failure envelope. -/
def errorBody (msg : String) : Json :=
  Json.obj [("error", Json.str msg)]

/-- An object field that is dropped when its value is `undefined`, as
`JSON.stringify` does inside `res.json`. -/
def objField (k : String) (v : JsVal) : List (String × Json) :=
  match v with
  | some j => [(k, j)]
  | none => []

/-- Truthiness of an environment variable: set and non-empty. -/
def envTruthy : Option String → Bool
  | some s => s != ""
  | none => false

/-- The 503 message of the Cloudflare handlers. -/
def cfUnavailableMsg : String :=
  "Cloudflare service is not available. Please check your CLOUDFLARE_API_KEY."

/-- Embeds the `GET /cloudflare/zones` handler. -/
def getCloudflareZonesHandler (cfAvailable : Bool) (o : Oracle) : HandlerOutput :=
  if cfAvailable then
    let r := CloudflareService.getZones o
    match r.result with
    | .ok zones =>
      ⟨200, Json.obj (("success", Json.bool true) :: objField "zones" zones),
        r.calls, r.log⟩
    | .error e =>
      ⟨500, errorBody e.message, r.calls, r.log ++ ["Error fetching zones:"]⟩
  else ⟨503, errorBody cfUnavailableMsg, [], []⟩

/-- Embeds the `POST /cloudflare/zones/:zoneId/dns` handler: rejects with
400 before any vendor call when `type`, `name` or `content` is falsy in
the body, otherwise forwards the whole body as `recordData`. -/
def createDNSRecordHandler (cfAvailable : Bool) (zoneId : String) (body : Json)
    (o : Oracle) : HandlerOutput :=
  if cfAvailable then
    if jsvTruthy (jsGet body "type") && jsvTruthy (jsGet body "name") &&
        jsvTruthy (jsGet body "content") then
      let r := CloudflareService.createDNSRecord zoneId body o
      match r.result with
      | .ok record =>
        ⟨200, Json.obj (("success", Json.bool true) :: objField "record" record),
          r.calls, r.log⟩
      | .error e =>
        ⟨500, errorBody e.message, r.calls, r.log ++ ["Error creating DNS record:"]⟩
    else
      ⟨400, errorBody "DNS record requires type, name, and content fields", [], []⟩
  else ⟨503, errorBody cfUnavailableMsg, [], []⟩

/-- Embeds the `POST /cloudflare/zones/:zoneId/purge-cache` handler:
destructures `files` from the body and passes it to
`CloudflareService.purgeCache`. -/
def purgeCacheHandler (cfAvailable : Bool) (zoneId : String) (body : Json)
    (o : Oracle) : HandlerOutput :=
  if cfAvailable then
    let r := CloudflareService.purgeCache zoneId (jsGet body "files") o
    match r.result with
    | .ok result =>
      ⟨200, Json.obj (("success", Json.bool true) :: objField "result" result),
        r.calls, r.log⟩
    | .error e =>
      ⟨500, errorBody e.message, r.calls, r.log ++ ["Error purging cache:"]⟩
  else ⟨503, errorBody cfUnavailableMsg, [], []⟩

/-! #### Taskade agent routes -/
/-- Base URL for the Taskade API. -/
def TASKADE_API_URL : String := "https://api.taskade.com/v1"

/-- The six `/taskade-tower/agents` routes, with their per-route request
parameters. -/
inductive TaskadeRoute where
  | listAgents
  | createAgent (body : Json)
  | getAgent (agentId : String)
  | updateAgent (agentId : String) (body : Json)
  | deleteAgent (agentId : String)
  | executeAgent (agentId : String) (body : Json)

/-- HTTP method of each Taskade route. -/
def TaskadeRoute.method : TaskadeRoute → String
  | .listAgents => "GET"
  | .createAgent _ => "POST"
  | .getAgent _ => "GET"
  | .updateAgent _ _ => "PUT"
  | .deleteAgent _ => "DELETE"
  | .executeAgent _ _ => "POST"

/-- Upstream URL of each Taskade route. -/
def TaskadeRoute.url : TaskadeRoute → String
  | .listAgents => TASKADE_API_URL ++ "/agents"
  | .createAgent _ => TASKADE_API_URL ++ "/agents"
  | .getAgent agentId => TASKADE_API_URL ++ "/agents/" ++ agentId
  | .updateAgent agentId _ => TASKADE_API_URL ++ "/agents/" ++ agentId
  | .deleteAgent agentId => TASKADE_API_URL ++ "/agents/" ++ agentId
  | .executeAgent agentId _ => TASKADE_API_URL ++ "/agents/" ++ agentId ++ "/execute"

/-- Headers each Taskade route sends upstream (every route injects the
key under `x-api-key`; the list mirrors each handler's literal). -/
def TaskadeRoute.headers (r : TaskadeRoute) (apiKey : String) : List (String × Json) :=
  match r with
  | .listAgents =>
    [("x-api-key", Json.str apiKey), ("Content-Type", Json.str "application/json"),
     ("Accept", Json.str "application/json")]
  | .createAgent _ => [("x-api-key", Json.str apiKey)]
  | _ => [("x-api-key", Json.str apiKey), ("Content-Type", Json.str "application/json")]

/-- Request body each Taskade route forwards upstream (`req.body` for
POST/PUT routes, nothing for GET/DELETE). -/
def TaskadeRoute.reqBody : TaskadeRoute → JsVal
  | .createAgent b => some b
  | .updateAgent _ b => some b
  | .executeAgent _ b => some b
  | _ => none

/-- The 401 response of the `authenticateRequest` middleware. -/
def authFailureOutput : HandlerOutput :=
  ⟨401, errorBody "TASKADE_API_KEY environment variable is not set. Please add it to Secrets.",
    [], ["TASKADE_API_KEY environment variable is not set"]⟩

/-- Status an agents handler sends on failure:
`error.response?.status || 500`. -/
def taskadeErrStatus (e : VendorError) : Nat :=
  match e.responseStatus with
  | some s => if s != 0 then s else 500
  | none => 500

/-- Error payload of an agents handler:
`error.response?.data || error.message || 'Internal server error'`. -/
def taskadeErrPayload (e : VendorError) : Json :=
  jsOrElse e.responseData
    (if e.message != "" then Json.str e.message else Json.str "Internal server error")

/-- Embeds the six `/taskade-tower/agents` handlers, each behind the
`authenticateRequest` middleware: with a falsy `TASKADE_API_KEY` the
middleware replies 401 and the handler never runs; otherwise the upstream
axios request is made with the route's headers and `response.data` is
passed through, while an axios error is mapped to its response status (or
500) with the `\x7berror\x7d` envelope. -/
def taskadeAgentsHandler (route : TaskadeRoute) (env : Option String)
    (o : Oracle) : HandlerOutput :=
  match env with
  | none => authFailureOutput
  | some apiKey =>
    if apiKey = "" then authFailureOutput
    else
      let args := Json.obj (("headers", Json.obj (route.headers apiKey)) ::
        objField "body" route.reqBody)
      let op := VendorOp.taskadeRequest route.method route.url
      match o op args with
      | .ok resp =>
        ⟨200, Option.getD (jsGet resp "data") Json.null, [⟨op, args, .ok resp⟩], []⟩
      | .error e =>
        ⟨taskadeErrStatus e, Json.obj [("error", taskadeErrPayload e)],
          [⟨op, args, .error e⟩], ["Error details:"]⟩

/-! #### Gemini routes -/
/-- The 503 message of the Gemini handlers. -/
def gmUnavailableMsg : String :=
  "Gemini service is not available. Please check your GEMINI_API_KEY."

/-- Embeds the `POST /gemini/analyze` handler. -/
def geminiAnalyzeHandler (gmAvailable : Bool) (body : Json) (o : Oracle) :
    HandlerOutput :=
  if gmAvailable then
    let text := jsGet body "text"
    let analysisType := Option.getD (jsGet body "analysisType") (Json.str "summary")
    if jsvTruthy text then
      let r := GeminiService.analyzeContent
        (jsToDisplayString (Option.getD text Json.null)) analysisType o
      match r.result with
      | .ok analysis =>
        ⟨200, Json.obj (("success", Json.bool true) :: objField "analysis" analysis ++
          [("analysisType", analysisType)]), r.calls, r.log⟩
      | .error e =>
        ⟨500, errorBody e.message, r.calls, r.log ++ ["Error analyzing content:"]⟩
    else ⟨400, errorBody "Text is required", [], []⟩
  else ⟨503, errorBody gmUnavailableMsg, [], []⟩

/-- Result of the optional Google-Doc block of the
`POST /gemini/generate-document` handler: the `googleDocInfo` value (null
when the block was skipped or failed), the vendor calls made by the
block, and its log lines.  Any error inside the block — including the
TypeError from reading `doc.documentId` off an undefined `doc` — is
swallowed by the inner catch, which logs and continues. -/
def generateDocumentGoogleDocBlock (documentTitle : JsVal) (topic : Json)
    (content : JsVal) (o : Oracle) : Json × List Call × List String :=
  let title := jsOrElse documentTitle
    (Json.str ("AI Generated: " ++ jsToDisplayString topic))
  let c := GoogleDocsService.createDocument title o
  match c.result with
  | .error _ => (Json.null, c.calls, c.log ++ ["Error creating Google Doc:"])
  | .ok none => (Json.null, c.calls, c.log ++ ["Error creating Google Doc:"])
  | .ok (some doc) =>
    let docId := Option.getD (jsGet doc "documentId") Json.null
    let i := GoogleDocsService.insertText docId (Option.getD content Json.null) o
    match i.result with
    | .error _ =>
      (Json.null, c.calls ++ i.calls, c.log ++ i.log ++ ["Error creating Google Doc:"])
    | .ok _ =>
      (Json.obj [("documentId", docId),
        ("title", Option.getD (jsGet doc "title") Json.null),
        ("url", Json.str ("https://docs.google.com/document/d/" ++
          jsToDisplayString docId ++ "/edit"))],
       c.calls ++ i.calls, c.log ++ i.log)

/-- Embeds the `POST /gemini/generate-document` handler: generates
content with Gemini, optionally creates a Google Doc (failures of that
step are swallowed, leaving `googleDoc: null`), and replies with the
success envelope. -/
def geminiGenerateDocumentHandler (gmAvailable : Bool) (body : Json)
    (o : Oracle) : HandlerOutput :=
  if gmAvailable then
    let topic := jsGet body "topic"
    let contentType := Option.getD (jsGet body "contentType") (Json.str "article")
    let length := Option.getD (jsGet body "length") (Json.str "medium")
    let createGoogleDoc := Option.getD (jsGet body "createGoogleDoc") (Json.bool false)
    let documentTitle := jsGet body "documentTitle"
    if jsvTruthy topic then
      let topicVal := Option.getD topic Json.null
      let g := GeminiService.generateDocumentContent topicVal contentType length o
      match g.result with
      | .error e =>
        ⟨500, errorBody e.message, g.calls, g.log ++ ["Error generating document:"]⟩
      | .ok content =>
        let block :=
          if jsTruthy createGoogleDoc then
            generateDocumentGoogleDocBlock documentTitle topicVal content o
          else (Json.null, [], [])
        ⟨200, Json.obj (("success", Json.bool true) :: objField "content" content ++
          [("topic", topicVal), ("contentType", contentType), ("length", length),
           ("googleDoc", block.1)]),
          g.calls ++ block.2.1, g.log ++ block.2.2⟩
    else ⟨400, errorBody "Topic is required", [], []⟩
  else ⟨503, errorBody gmUnavailableMsg, [], []⟩

/-- Embeds the `GET /taskade-tower/health` handler: always 200 with a
status object (no `success` field, no vendor call). -/
def healthHandler (env : Option String) : HandlerOutput :=
  ⟨200, Json.obj [("status", Json.str "ok"),
    ("message", Json.str "Taskade Agent Integration API is running"),
    ("apiKeyConfigured", Json.bool (envTruthy env))], [], []⟩

/-! ### The server as a state machine over requests -/
/-- The module-level bindings a handler can read: which optional services
initialized at startup, and the Taskade key in the environment. -/
structure ServerState where
  cloudflareAvailable : Bool
  geminiAvailable : Bool
  taskadeApiKey : Option String

/-- An inbound request to one of the embedded routes. -/
inductive Req where
  | cfGetZones
  | cfCreateDNS (zoneId : String) (body : Json)
  | cfPurgeCache (zoneId : String) (body : Json)
  | taskadeAgents (route : TaskadeRoute)
  | geminiAnalyze (body : Json)
  | geminiGenerateDocument (body : Json)
  | health

/-- Dispatches a request to its handler. -/
def handleRequest (s : ServerState) (req : Req) (o : Oracle) : HandlerOutput :=
  match req with
  | .cfGetZones => getCloudflareZonesHandler s.cloudflareAvailable o
  | .cfCreateDNS z b => createDNSRecordHandler s.cloudflareAvailable z b o
  | .cfPurgeCache z b => purgeCacheHandler s.cloudflareAvailable z b o
  | .taskadeAgents r => taskadeAgentsHandler r s.taskadeApiKey o
  | .geminiAnalyze b => geminiAnalyzeHandler s.geminiAvailable b o
  | .geminiGenerateDocument b => geminiGenerateDocumentHandler s.geminiAvailable b o
  | .health => healthHandler s.taskadeApiKey

/-- Processing one request: the response, and the module state afterwards.
No handler in src/index.js assigns to any module-level binding (the only
per-request write is `req.apiKey`, a field of the request object itself),
so the state after a request is the state before it. -/
def processRequest (s : ServerState) (req : Req) (o : Oracle) :
    HandlerOutput × ServerState :=
  (handleRequest s req o, s)

/-- Folds a whole sequence of requests through the server state. -/
def processAll (s : ServerState) (reqs : List Req) (o : Oracle) : ServerState :=
  match reqs with
  | [] => s
  | r :: rest => processAll (processRequest s r o).2 rest o

/-- Embeds the `POST /google-docs/create` handler: destructures `title`
(defaulting to Untitled Document), calls the effective
`GoogleDocsService.createDocument`, and replies with the success envelope
or a 500 with the error message.  Reading `document.documentId` off an
undefined `document` raises a TypeError that the catch turns into a
500. -/
def googleDocsCreateHandler (body : Json) (o : Oracle) : HandlerOutput :=
  let title := Option.getD (jsGet body "title") (Json.str "Untitled Document")
  let r := GoogleDocsService.createDocument title o
  match r.result with
  | .ok (some doc) =>
    ⟨200, Json.obj (("success", Json.bool true) ::
      objField "documentId" (jsGet doc "documentId") ++
      objField "title" (jsGet doc "title") ++
      [("url", Json.str ("https://docs.google.com/document/d/" ++
        jsvDisplayString (jsGet doc "documentId") ++ "/edit"))]),
      r.calls, r.log⟩
  | .ok none =>
    ⟨500, errorBody typeErrorUndefined.message, r.calls,
      r.log ++ ["Error creating document:"]⟩
  | .error e =>
    ⟨500, errorBody e.message, r.calls, r.log ++ ["Error creating document:"]⟩

/-! ### Helper predicates and concrete oracles used by the theorems -/
/-- Whether some vendor call recorded for a request failed. -/
def anyCallFailed (out : HandlerOutput) : Bool :=
  out.calls.any Call.failed

/-- Whether a recorded vendor call sends the header `x-api-key` with the
given key. -/
def callCarriesApiKeyB (c : Call) (k : String) : Bool :=
  match jsGet c.args "headers" with
  | some (.obj hs) =>
    hs.any (fun p => p.1 == "x-api-key" &&
      (match p.2 with | .str s => s == k | _ => false))
  | _ => false

/-- Oracle on which every vendor call succeeds with an empty object. -/
def okOracle : Oracle := fun _ _ => .ok (Json.obj [])

/-- Oracle on which every vendor call fails with a bare error. -/
def failOracle : Oracle := fun _ _ => .error ⟨"boom", none, none⟩

/-- A request body whose `type` field is present but empty. -/
def dnsEmptyTypeBody : Json :=
  Json.obj [("type", Json.str ""), ("name", Json.str "a.example.com"),
    ("content", Json.str "1.2.3.4")]

/-- A valid DNS-record body with all three required fields truthy. -/
def dnsValidBody : Json :=
  Json.obj [("type", Json.str "A"), ("name", Json.str "a.example.com"),
    ("content", Json.str "1.2.3.4")]

/-- Embeds the `POST /huggingface/summarization` handler: 503 when the
service did not initialize, 400 on a falsy `text`, otherwise calls
`summarizeText` with the body's text, model (defaulting to
facebook/bart-large-cnn) and parameters, and replies with the success
envelope or a 500 with the error message. -/
def hfSummarizationHandler (hfAvailable : Bool) (body : Json) (o : Oracle) :
    HandlerOutput :=
  if hfAvailable then
    let text := jsGet body "text"
    if jsvTruthy text then
      let modelName := match jsGet body "model" with
        | some j => jsToDisplayString j
        | none => "facebook/bart-large-cnn"
      let r := HuggingFaceService.summarizeText
        (jsToDisplayString (Option.getD text Json.null)) modelName
        (Option.getD (jsGet body "parameters") (Json.obj [])) o
      match r.result with
      | .ok result =>
        ⟨200, Json.obj (("success", Json.bool true) :: objField "summary" result ++
          [("model", jsOrElse (jsGet body "model")
            (Json.str "facebook/bart-large-cnn"))]), r.calls, r.log⟩
      | .error e =>
        ⟨500, errorBody e.message, r.calls, r.log ++ ["Error summarizing text:"]⟩
    else ⟨400, errorBody "Text is required", [], []⟩
  else
    ⟨503, errorBody "Hugging Face service is not available. Please check your HUGGINGFACE_API_KEY.",
      [], []⟩

/-- Embeds the `GET /gitlab/user` handler: 503 when the service did not
initialize, otherwise passes `getCurrentUser` through with the success
envelope or a 500 with the error message. -/
def gitlabUserHandler (glAvailable : Bool) (o : Oracle) : HandlerOutput :=
  if glAvailable then
    let r := GitlabService.getCurrentUser o
    match r.result with
    | .ok user =>
      ⟨200, Json.obj (("success", Json.bool true) :: objField "user" user),
        r.calls, r.log⟩
    | .error e =>
      ⟨500, errorBody e.message, r.calls, r.log ++ ["Error fetching current user:"]⟩
  else
    ⟨503, errorBody "GitLab service is not available. Please check your GITLAB_API_KEY.",
      [], []⟩

/-- Embeds the root `GET /` handler: a fixed info object listing the
endpoints and service availability, with no vendor call and no
envelope. -/
def rootHandler (gm cf hf gl : Bool) (taskadeKey : Option String) : HandlerOutput :=
  ⟨200, Json.obj [("message",
      Json.str "Taskade, Google Docs, Gemini AI, Cloudflare, Hugging Face & GitLab Integration API"),
    ("endpoints", Json.obj [("taskade", Json.str "/taskade-tower/health"),
      ("googleDocs", Json.str "/google-docs-test"), ("gemini", Json.str "/gemini-test"),
      ("cloudflare", Json.str "/cloudflare-test"),
      ("huggingface", Json.str "/huggingface-test"),
      ("gitlab", Json.str "/gitlab-test"), ("test", Json.str "/test")]),
    ("services", Json.obj [("geminiAvailable", Json.bool gm),
      ("googleDocsAvailable", Json.bool true), ("cloudflareAvailable", Json.bool cf),
      ("huggingFaceAvailable", Json.bool hf), ("gitlabAvailable", Json.bool gl),
      ("taskadeKeyConfigured", Json.bool (envTruthy taskadeKey))])], [], []⟩

/-! ### Envelope discipline -/
/-- The `\x7bsuccess, ...\x7d` / `\x7berror\x7d` discipline: a 200
response carries `success: true` and any other response carries an
`error` field. -/
def envelopeCompliant (out : HandlerOutput) : Prop :=
  (out.status = 200 → jsGet out.body "success" = some (Json.bool true)) ∧
  (out.status ≠ 200 → jsGet out.body "error" ≠ none)

/-- Envelope discipline each embedded route actually follows: the
Cloudflare, Gemini and similar handlers use the uniform envelope; the
Taskade agent routes use the `\x7berror\x7d` envelope on failure and,
whenever their upstream call succeeded, reply 200 with the upstream
`response.data` passed through unchanged; the health route replies 200
with a plain status object carrying neither a `success` nor an `error`
field. -/
def envelopeOk (req : Req) (out : HandlerOutput) : Prop :=
  match req with
  | .taskadeAgents _ =>
    (out.status ≠ 200 → jsGet out.body "error" ≠ none) ∧
    (∀ c ∈ out.calls, ∀ resp, c.result = Except.ok resp →
      out.status = 200 ∧ out.body = Option.getD (jsGet resp "data") Json.null)
  | .health =>
    out.status = 200 ∧ jsGet out.body "success" = none ∧
      jsGet out.body "error" = none ∧
      jsGet out.body "status" = some (Json.str "ok")
  | _ => envelopeCompliant out

/-! ### Service method return values -/
/-- The request object `HuggingFaceService.summarizeText` sends: model,
inputs, and the default parameters merged with the caller's. -/
def hfSummarizationArgs (text modelName : String) (parameters : Json) : Json :=
  Json.obj [("model", Json.str modelName), ("inputs", Json.str text),
    ("parameters", jsSpreadMerge
      (Json.obj [("max_length", Json.num 130), ("min_length", Json.num 30)]) parameters)]

/-- A Hugging Face summarization response: an array whose first element
holds `summary_text`.  It has no `result` or `data` field. -/
def hfSampleResponse : Json :=
  Json.arr [Json.obj [("summary_text", Json.str "short summary")]]

/-- Oracle answering every call with `hfSampleResponse`. -/
def hfOracle : Oracle := fun _ _ => .ok hfSampleResponse

/-! ### Error propagation -/
/-- How the handlers report a failed vendor call: something was logged,
and some recorded call failed with an error whose status (500 or the
vendor's own response status) and message (or axios response payload)
shape the response. -/
def vendorFailureHandled (out : HandlerOutput) : Prop :=
  out.log ≠ [] ∧
  ∃ c ∈ out.calls, ∃ e, c.result = Except.error e ∧
    (out.status = 500 ∨ e.responseStatus = some out.status) ∧
    (jsGet out.body "error" = some (Json.str e.message) ∨
     jsGet out.body "error" = some (taskadeErrPayload e))

/-- Whether the Gemini `generateContent` call recorded for a request
failed. -/
def geminiCallFailed (out : HandlerOutput) : Bool :=
  out.calls.any (fun c => c.failed && (c.op == VendorOp.gmGenerateContent))

/-- Oracle on which every call succeeds with an object carrying a `data`
payload, like an axios response. -/
def taskadeDataOracle : Oracle := fun _ _ =>
  .ok (Json.obj [("data", Json.str "payload")])

/-- Oracle on which the Gemini model succeeds but every Google Docs call
fails. -/
def geminiOkDocsFailOracle : Oracle := fun op _ =>
  match op with
  | .gmGenerateContent => .ok (Json.str "generated text")
  | _ => .error ⟨"docs api down", none, none⟩

/-- A generate-document request that asks for the optional Google Doc. -/
def genDocBody : Json :=
  Json.obj [("topic", Json.str "cats"), ("createGoogleDoc", Json.bool true)]

/-! ### Single-shot vendor calls, no success after failure -/
/-- Oracle on which document creation succeeds but the batch update
(insertText) fails. -/
def docsInsertFailOracle : Oracle := fun op _ =>
  match op with
  | .gdDocumentsBatchUpdate => .error ⟨"batch update failed", none, none⟩
  | .gdDocumentsCreate =>
    .ok (Json.obj [("data", Json.obj [("documentId", Json.str "d1"),
      ("title", Json.str "T")])])
  | _ => .ok (Json.str "generated text")

/-- A generate-document request asking for the optional Google Doc. -/
def genDocInsertBody : Json :=
  Json.obj [("topic", Json.str "dogs"), ("createGoogleDoc", Json.bool true)]

theorem strAppend_assoc (a b c : String) : a ++ b ++ c = a ++ (b ++ c) := by
  apply String.ext
  simp [String.data_append]

mutual

theorem extractFromContent_eq :
    ∀ (c : List StructuralElement) (text : String),
      extractFromContent c text = text ++ specContentText c
  | [], text => by simp [extractFromContent, specContentText]
  | e :: rest, text => by
    rw [extractFromContent, specContentText, extractFromElement_eq e text,
      extractFromContent_eq rest, strAppend_assoc]

theorem extractFromElement_eq :
    ∀ (e : StructuralElement) (text : String),
      extractFromElement e text = text ++ specElementText e
  | .paragraph elems, text => by
    rw [extractFromElement, specElementText, extractFromParagraph_eq elems text]
  | .table rows, text => by
    rw [extractFromElement, specElementText, extractFromRows_eq rows text]
  | .otherStructural, text => by
    simp [extractFromElement, specElementText]

theorem extractFromParagraph_eq :
    ∀ (elems : List ParagraphElement) (text : String),
      extractFromParagraph elems text = text ++ specParagraphText elems
  | [], text => by simp [extractFromParagraph, specParagraphText]
  | .textRun c :: rest, text => by
    rw [extractFromParagraph, specParagraphText,
      extractFromParagraph_eq rest, strAppend_assoc]
  | .otherElement :: rest, text => by
    rw [extractFromParagraph, specParagraphText, extractFromParagraph_eq rest]

theorem extractFromRows_eq :
    ∀ (rows : List (List (List StructuralElement))) (text : String),
      extractFromRows rows text = text ++ specRowsText rows
  | [], text => by simp [extractFromRows, specRowsText]
  | row :: rest, text => by
    rw [extractFromRows, specRowsText, extractFromCells_eq row text,
      extractFromRows_eq rest, strAppend_assoc]

theorem extractFromCells_eq :
    ∀ (cells : List (List StructuralElement)) (text : String),
      extractFromCells cells text = text ++ specCellsText cells
  | [], text => by simp [extractFromCells, specCellsText]
  | cell :: rest, text => by
    rw [extractFromCells, specCellsText, extractFromContent_eq cell text,
      extractFromCells_eq rest, strAppend_assoc]

end

/-- C10: `extractTextContent` is a pure total function equal, on every
document, to the specification-side extraction: the concatenation in
document order of the content of every text run inside paragraph
elements, recursing into every table cell's content, and the empty string
for a document with no body or no body content.  Being a Lean function of
a plain argument, it is total and cannot modify its argument. -/
theorem extractTextContent_correct (doc : Document) :
    GoogleDocsService.extractTextContent doc = specExtractTextContent doc := by
  obtain ⟨body⟩ := doc
  cases body with
  | none => rfl
  | some b =>
    obtain ⟨content⟩ := b
    cases content with
    | none => rfl
    | some c =>
      show extractFromContent c "" = specContentText c
      rw [extractFromContent_eq c ""]
      apply String.ext
      simp [String.data_append]

/-! ### Structural lemmas about single-call methods -/
theorem purgeCache_calls (zoneId : String) (files : JsVal) (o : Oracle) :
    (CloudflareService.purgeCache zoneId files o).calls =
      [⟨.cfZonesPurgeCache, Json.arr [Json.str zoneId, purgeCacheData files],
        o .cfZonesPurgeCache (Json.arr [Json.str zoneId, purgeCacheData files])⟩] := by
  simp only [CloudflareService.purgeCache, vendorUnit]
  cases o .cfZonesPurgeCache (Json.arr [Json.str zoneId, purgeCacheData files]) <;> rfl

theorem purgeCacheHandler_calls (zoneId : String) (body : Json) (o : Oracle) :
    (purgeCacheHandler true zoneId body o).calls =
      (CloudflareService.purgeCache zoneId (jsGet body "files") o).calls := by
  simp only [purgeCacheHandler]
  cases h : (CloudflareService.purgeCache zoneId (jsGet body "files") o).result <;>
    simp [h]

theorem createDocumentLastDef_calls (title : Json) (o : Oracle) :
    (GoogleDocsService.createDocumentLastDef title o).calls =
      [⟨.gdDocumentsCreate, Json.obj [("requestBody", Json.obj [("title", title)])],
        o .gdDocumentsCreate (Json.obj [("requestBody", Json.obj [("title", title)])])⟩] := by
  simp only [GoogleDocsService.createDocumentLastDef, vendorUnit]
  cases o .gdDocumentsCreate (Json.obj [("requestBody", Json.obj [("title", title)])]) <;>
    rfl

/-! ### Claims -/
/-- C7: processing a request mutates no module-level state, so the
response to a request is independent of whatever requests were processed
before it: running any prior request list leaves the server state intact,
and the response computed afterwards equals the response computed from
the initial state. -/
theorem request_noninterference (s : ServerState) (prior : List Req) (req : Req)
    (o : Oracle) :
    processAll s prior o = s ∧
    (processRequest (processAll s prior o) req o).1 = (processRequest s req o).1 := by
  have h : ∀ (t : List Req) (st : ServerState), processAll st t o = st := by
    intro t
    induction t with
    | nil => intro st; rfl
    | cons r rest ih => intro st; exact ih st
  exact ⟨h prior s, by rw [h prior s]⟩

/-- C8: the second class-body definition of
`GoogleDocsService.createDocument` shadows the first under JavaScript
class semantics, so the effective method (and hence the
`POST /google-docs/create` handler built on it) only creates the document
and returns its data: `drive.permissions.create` is never invoked, and no
created document is made publicly readable. -/
theorem createDocument_shadowing :
    resolveClassMethod gdocCreateDocumentDefs "createDocument" =
      some GoogleDocsService.createDocument ∧
    GoogleDocsService.createDocument = GoogleDocsService.createDocumentLastDef ∧
    (∀ (title : Json) (o : Oracle),
      (GoogleDocsService.createDocument title o).calls.map Call.op =
        [VendorOp.gdDocumentsCreate]) ∧
    (∀ (body : Json) (o : Oracle),
      ∀ c ∈ (googleDocsCreateHandler body o).calls,
        c.op ≠ VendorOp.gdPermissionsCreate) := by
  refine ⟨rfl, rfl, ?_, ?_⟩
  · intro title o
    rw [show GoogleDocsService.createDocument =
      GoogleDocsService.createDocumentLastDef from rfl, createDocumentLastDef_calls]
    rfl
  · intro body o c hc
    have hcalls : (googleDocsCreateHandler body o).calls =
        (GoogleDocsService.createDocumentLastDef
          (Option.getD (jsGet body "title") (Json.str "Untitled Document")) o).calls := by
      simp only [googleDocsCreateHandler]
      cases hres : (GoogleDocsService.createDocument
          (Option.getD (jsGet body "title") (Json.str "Untitled Document")) o).result with
      | ok d => cases d <;> rfl
      | error e => rfl
    rw [hcalls, createDocumentLastDef_calls] at hc
    rcases List.mem_singleton.mp hc with rfl
    intro h
    exact VendorOp.noConfusion h

/-- C9: `CloudflareService.purgeCache` (reached through
`POST /cloudflare/zones/:zoneId/purge-cache`) sends the body
`\x7bpurge_everything: true\x7d` whenever `files` is null or absent from
the request body, and sends a `\x7bfiles\x7d` body only when a `files`
value was actually provided. -/
theorem purgeCache_purge_everything (zoneId : String) (body : Json) (o : Oracle) :
    ((jsGet body "files" = none ∨ jsGet body "files" = some Json.null) →
      (purgeCacheHandler true zoneId body o).calls.map Call.args =
        [Json.arr [Json.str zoneId, Json.obj [("purge_everything", Json.bool true)]]]) ∧
    (∀ f, purgeCacheData (jsGet body "files") = Json.obj [("files", f)] →
      jsGet body "files" = some f) := by
  constructor
  · intro h
    have hd : purgeCacheData (jsGet body "files") =
        Json.obj [("purge_everything", Json.bool true)] := by
      rcases h with h | h <;> rw [h] <;> rfl
    rw [purgeCacheHandler_calls, purgeCache_calls, hd]
    rfl
  · intro f hf
    cases hfil : jsGet body "files" with
    | none =>
      rw [hfil] at hf
      simp [purgeCacheData] at hf
    | some j =>
      rw [hfil] at hf
      simp only [purgeCacheData] at hf
      cases hj : jsTruthy j with
      | true =>
        rw [hj] at hf
        simp at hf
        rw [hf]
      | false =>
        rw [hj] at hf
        simp at hf

/-- Witness for `purgeCache_purge_everything`: a body without `files`
yields the purge-everything call, and `purgeCacheData` produces a
`files` body exactly for the provided list. -/
theorem purgeCache_purge_everything_witness :
    (purgeCacheHandler true "z1" (Json.obj []) okOracle).calls.map Call.args =
      [Json.arr [Json.str "z1", Json.obj [("purge_everything", Json.bool true)]]] ∧
    jsGet (Json.obj [("files", Json.arr [Json.str "styles.css"])]) "files" =
      some (Json.arr [Json.str "styles.css"]) :=
  ⟨(purgeCache_purge_everything "z1" (Json.obj []) okOracle).1 (Or.inl rfl),
   (purgeCache_purge_everything "z1"
     (Json.obj [("files", Json.arr [Json.str "styles.css"])]) okOracle).2
     (Json.arr [Json.str "styles.css"]) rfl⟩

theorem taskadeAgentsHandler_calls (route : TaskadeRoute) (k : String) (hk : k ≠ "")
    (o : Oracle) :
    (taskadeAgentsHandler route (some k) o).calls =
      [⟨VendorOp.taskadeRequest route.method route.url,
        Json.obj (("headers", Json.obj (route.headers k)) :: objField "body" route.reqBody),
        o (VendorOp.taskadeRequest route.method route.url)
          (Json.obj (("headers", Json.obj (route.headers k)) ::
            objField "body" route.reqBody))⟩] := by
  simp only [taskadeAgentsHandler]
  rw [if_neg hk]
  cases o (VendorOp.taskadeRequest route.method route.url)
      (Json.obj (("headers", Json.obj (route.headers k)) ::
        objField "body" route.reqBody)) <;> rfl

/-- C3 counterexample: with `TASKADE_API_KEY` set to the empty string the
variable is set, yet the agents handler responds 401 and makes no
upstream request at all — so no upstream request carries the key, against
the claim's second half. -/
theorem taskade_auth_counterexample :
    (taskadeAgentsHandler .listAgents (some "") okOracle).status = 401 ∧
    (taskadeAgentsHandler .listAgents (some "") okOracle).calls = [] :=
  ⟨rfl, rfl⟩

/-- C3 (amended): for every `/taskade-tower/agents` route, if
`TASKADE_API_KEY` is unset or empty the handler responds 401 with the
error message and makes no upstream request; if it is set to a non-empty
key, every upstream Taskade request carries that key in the `x-api-key`
header. -/
theorem taskade_auth_amended (route : TaskadeRoute) (env : Option String) (o : Oracle) :
    (envTruthy env = false →
      (taskadeAgentsHandler route env o).status = 401 ∧
      (taskadeAgentsHandler route env o).body =
        errorBody "TASKADE_API_KEY environment variable is not set. Please add it to Secrets." ∧
      (taskadeAgentsHandler route env o).calls = []) ∧
    (∀ k, env = some k → k ≠ "" →
      ((taskadeAgentsHandler route env o).calls.all
        (fun c => callCarriesApiKeyB c k)) = true) := by
  constructor
  · intro h
    cases env with
    | none => exact ⟨rfl, rfl, rfl⟩
    | some k =>
      have hk : k = "" := by simpa [envTruthy] using h
      subst hk
      exact ⟨rfl, rfl, rfl⟩
  · rintro k rfl hk
    rw [taskadeAgentsHandler_calls route k hk o]
    cases route <;>
      simp [callCarriesApiKeyB, jsGet, lookupField, TaskadeRoute.headers]

/-- Witness for `taskade_auth_amended`: an unset key gives the 401 with
no upstream call, and a set non-empty key is carried by every upstream
call of the list-agents route. -/
theorem taskade_auth_amended_witness :
    ((taskadeAgentsHandler .listAgents none okOracle).status = 401 ∧
     (taskadeAgentsHandler .listAgents none okOracle).calls = []) ∧
    ((taskadeAgentsHandler .listAgents (some "secret-key") okOracle).calls.all
      (fun c => callCarriesApiKeyB c "secret-key")) = true :=
  ⟨⟨((taskade_auth_amended .listAgents none okOracle).1 rfl).1,
    ((taskade_auth_amended .listAgents none okOracle).1 rfl).2.2⟩,
   (taskade_auth_amended .listAgents (some "secret-key") okOracle).2 "secret-key" rfl
     (by decide)⟩

theorem createDNSRecord_calls (zoneId : String) (recordData : Json) (o : Oracle) :
    (CloudflareService.createDNSRecord zoneId recordData o).calls =
      [⟨.cfDnsRecordsAdd, Json.arr [Json.str zoneId, recordData],
        o .cfDnsRecordsAdd (Json.arr [Json.str zoneId, recordData])⟩] := by
  simp only [CloudflareService.createDNSRecord, vendorUnit]
  cases o .cfDnsRecordsAdd (Json.arr [Json.str zoneId, recordData]) <;> rfl

theorem createDNSRecordHandler_calls_of_valid (zoneId : String) (body : Json)
    (o : Oracle)
    (h : (jsvTruthy (jsGet body "type") && jsvTruthy (jsGet body "name") &&
        jsvTruthy (jsGet body "content")) = true) :
    (createDNSRecordHandler true zoneId body o).calls =
      (CloudflareService.createDNSRecord zoneId body o).calls := by
  simp only [createDNSRecordHandler, h]
  cases hres : (CloudflareService.createDNSRecord zoneId body o).result <;> simp [hres]

/-- C6 counterexample: a body carrying all three of `type`, `name` and
`content` — with `type` the empty string — is rejected with 400 and no
vendor call, though the claim promises forwarding whenever all three
fields are present. -/
theorem dns_validation_counterexample :
    jsGet dnsEmptyTypeBody "type" = some (Json.str "") ∧
    jsGet dnsEmptyTypeBody "name" = some (Json.str "a.example.com") ∧
    jsGet dnsEmptyTypeBody "content" = some (Json.str "1.2.3.4") ∧
    (createDNSRecordHandler true "zone1" dnsEmptyTypeBody okOracle).status = 400 ∧
    (createDNSRecordHandler true "zone1" dnsEmptyTypeBody okOracle).calls = [] :=
  ⟨rfl, rfl, rfl, rfl, rfl⟩

/-- C6 (amended): with the Cloudflare service initialized, the handler
responds 400 with no vendor call whenever any of `type`, `name`,
`content` is missing or otherwise falsy in the body, and forwards the
body unmodified as the `recordData` argument of `createDNSRecord` when
all three are truthy; with the service uninitialized it responds 503
with no vendor call. -/
theorem dns_validation_amended (zoneId : String) (body : Json) (o : Oracle) :
    ((jsvTruthy (jsGet body "type") && jsvTruthy (jsGet body "name") &&
        jsvTruthy (jsGet body "content")) = false →
      (createDNSRecordHandler true zoneId body o).status = 400 ∧
      (createDNSRecordHandler true zoneId body o).calls = []) ∧
    ((jsvTruthy (jsGet body "type") && jsvTruthy (jsGet body "name") &&
        jsvTruthy (jsGet body "content")) = true →
      (createDNSRecordHandler true zoneId body o).calls.map Call.op =
        [VendorOp.cfDnsRecordsAdd] ∧
      (createDNSRecordHandler true zoneId body o).calls.map Call.args =
        [Json.arr [Json.str zoneId, body]]) ∧
    ((createDNSRecordHandler false zoneId body o).status = 503 ∧
     (createDNSRecordHandler false zoneId body o).calls = []) := by
  refine ⟨?_, ?_, rfl, rfl⟩
  · intro h
    constructor <;> simp [createDNSRecordHandler, h]
  · intro h
    rw [createDNSRecordHandler_calls_of_valid zoneId body o h, createDNSRecord_calls]
    exact ⟨rfl, rfl⟩

/-- Witness for `dns_validation_amended`: an empty body is rejected with
400 and no call, and a valid body is forwarded unmodified. -/
theorem dns_validation_amended_witness :
    ((createDNSRecordHandler true "z1" (Json.obj []) okOracle).status = 400 ∧
     (createDNSRecordHandler true "z1" (Json.obj []) okOracle).calls = []) ∧
    (createDNSRecordHandler true "z1" dnsValidBody okOracle).calls.map Call.args =
      [Json.arr [Json.str "z1", dnsValidBody]] :=
  ⟨(dns_validation_amended "z1" (Json.obj []) okOracle).1 rfl,
   ((dns_validation_amended "z1" dnsValidBody okOracle).2.1 rfl).2⟩

theorem envelopeCompliant_success (rest : List (String × Json)) (calls : List Call)
    (log : List String) :
    envelopeCompliant ⟨200, Json.obj (("success", Json.bool true) :: rest), calls, log⟩ :=
  ⟨fun _ => rfl, fun h => absurd rfl h⟩

theorem envelopeCompliant_error (st : Nat) (h : st ≠ 200) (msg : String)
    (calls : List Call) (log : List String) :
    envelopeCompliant ⟨st, errorBody msg, calls, log⟩ :=
  ⟨fun hh => absurd hh h, fun _ hnone => Option.noConfusion hnone⟩

/-- C2 counterexample: the health route's 200 response carries neither a
`success` field nor an `error` field, so the response envelope is not
uniform across the REST routes. -/
theorem uniform_envelope_counterexample :
    (healthHandler (some "key")).status = 200 ∧
    jsGet (healthHandler (some "key")).body "success" = none ∧
    jsGet (healthHandler (some "key")).body "error" = none :=
  ⟨rfl, rfl, rfl⟩

/-- C2 (amended): the Cloudflare, Gemini, Google-Docs, Hugging Face and
GitLab route handlers reply with the uniform `\x7bsuccess, ...\x7d` /
`\x7berror\x7d` envelope; the Taskade agent routes pass the upstream
response data through unchanged on success and use the
`\x7berror\x7d` envelope on failure; the health route and the root
info route reply 200 with plain status/info objects that carry neither
field. -/
theorem uniform_envelope_amended (s : ServerState) (req : Req) (o : Oracle)
    (hfAvailable glAvailable : Bool) (body : Json) :
    envelopeOk req (handleRequest s req o) ∧
    envelopeCompliant (googleDocsCreateHandler body o) ∧
    envelopeCompliant (hfSummarizationHandler hfAvailable body o) ∧
    envelopeCompliant (gitlabUserHandler glAvailable o) ∧
    ((rootHandler s.geminiAvailable s.cloudflareAvailable hfAvailable glAvailable
        s.taskadeApiKey).status = 200 ∧
     jsGet (rootHandler s.geminiAvailable s.cloudflareAvailable hfAvailable glAvailable
        s.taskadeApiKey).body "success" = none ∧
     jsGet (rootHandler s.geminiAvailable s.cloudflareAvailable hfAvailable glAvailable
        s.taskadeApiKey).body "error" = none) := by
  refine ⟨?_, ?_, ?_, ?_, rfl, rfl, rfl⟩
  case refine_2 =>
    simp only [googleDocsCreateHandler]
    split
    · exact envelopeCompliant_success _ _ _
    · exact envelopeCompliant_error 500 (by decide) _ _ _
    · exact envelopeCompliant_error 500 (by decide) _ _ _
  case refine_3 =>
    simp only [hfSummarizationHandler]
    split
    · split
      · split
        · exact envelopeCompliant_success _ _ _
        · exact envelopeCompliant_error 500 (by decide) _ _ _
      · exact envelopeCompliant_error 400 (by decide) _ _ _
    · exact envelopeCompliant_error 503 (by decide) _ _ _
  case refine_4 =>
    simp only [gitlabUserHandler]
    split
    · split
      · exact envelopeCompliant_success _ _ _
      · exact envelopeCompliant_error 500 (by decide) _ _ _
    · exact envelopeCompliant_error 503 (by decide) _ _ _
  case refine_1 =>
  cases req with
  | cfGetZones =>
    show envelopeCompliant _
    simp only [handleRequest, getCloudflareZonesHandler]
    split
    · split
      · exact envelopeCompliant_success _ _ _
      · exact envelopeCompliant_error 500 (by decide) _ _ _
    · exact envelopeCompliant_error 503 (by decide) _ _ _
  | cfCreateDNS z b =>
    show envelopeCompliant _
    simp only [handleRequest, createDNSRecordHandler]
    split
    · split
      · split
        · exact envelopeCompliant_success _ _ _
        · exact envelopeCompliant_error 500 (by decide) _ _ _
      · exact envelopeCompliant_error 400 (by decide) _ _ _
    · exact envelopeCompliant_error 503 (by decide) _ _ _
  | cfPurgeCache z b =>
    show envelopeCompliant _
    simp only [handleRequest, purgeCacheHandler]
    split
    · split
      · exact envelopeCompliant_success _ _ _
      · exact envelopeCompliant_error 500 (by decide) _ _ _
    · exact envelopeCompliant_error 503 (by decide) _ _ _
  | taskadeAgents r =>
    show (_ ∧ _)
    simp only [handleRequest, taskadeAgentsHandler]
    split
    · constructor
      · intro _ hnone
        exact Option.noConfusion hnone
      · intro c hc
        exact absurd hc (List.not_mem_nil c)
    · split
      · constructor
        · intro _ hnone
          exact Option.noConfusion hnone
        · intro c hc
          exact absurd hc (List.not_mem_nil c)
      · split
        · rename_i resp2 heq2
          constructor
          · intro h
            exact absurd rfl h
          · intro c hc resp hres
            rcases List.mem_singleton.mp hc with rfl
            have h2 : (Except.ok resp2 : Except VendorError Json) = Except.ok resp := hres
            cases Except.ok.inj h2
            exact ⟨rfl, rfl⟩
        · constructor
          · intro _ hnone
            exact Option.noConfusion hnone
          · intro c hc resp hres
            rcases List.mem_singleton.mp hc with rfl
            exact Except.noConfusion hres
  | geminiAnalyze b =>
    show envelopeCompliant _
    simp only [handleRequest, geminiAnalyzeHandler]
    split
    · split
      · split
        · exact envelopeCompliant_success _ _ _
        · exact envelopeCompliant_error 500 (by decide) _ _ _
      · exact envelopeCompliant_error 400 (by decide) _ _ _
    · exact envelopeCompliant_error 503 (by decide) _ _ _
  | geminiGenerateDocument b =>
    show envelopeCompliant _
    simp only [handleRequest, geminiGenerateDocumentHandler]
    split
    · split
      · split
        · exact envelopeCompliant_error 500 (by decide) _ _ _
        · exact envelopeCompliant_success _ _ _
      · exact envelopeCompliant_error 400 (by decide) _ _ _
    · exact envelopeCompliant_error 503 (by decide) _ _ _
  | health =>
    exact ⟨rfl, rfl, rfl, rfl⟩

/-- Witness for `uniform_envelope_amended`: a successful Cloudflare zones
response carries `success: true`, a failing one carries an `error`
field, a successful Taskade call's
`response.data` is passed through unchanged, a Hugging Face
summarization success uses the envelope, and a GitLab failure carries an
`error` field. -/
theorem uniform_envelope_amended_witness :
    jsGet (handleRequest ⟨true, true, some "k"⟩ .cfGetZones okOracle).body "success" =
      some (Json.bool true) ∧
    jsGet (handleRequest ⟨true, true, some "k"⟩ .cfGetZones failOracle).body "error" ≠
      none ∧
    (handleRequest ⟨true, true, some "k"⟩ (.taskadeAgents .listAgents)
      taskadeDataOracle).body = Json.str "payload" ∧
    jsGet (hfSummarizationHandler true (Json.obj [("text", Json.str "long text")])
      hfOracle).body "success" = some (Json.bool true) ∧
    jsGet (gitlabUserHandler true failOracle).body "error" ≠ none :=
  ⟨((uniform_envelope_amended ⟨true, true, some "k"⟩ .cfGetZones okOracle true true
      (Json.obj [])).1).1 rfl,
   ((uniform_envelope_amended ⟨true, true, some "k"⟩ .cfGetZones failOracle true true
      (Json.obj [])).1).2 (by decide),
   (((uniform_envelope_amended ⟨true, true, some "k"⟩ (.taskadeAgents .listAgents)
      taskadeDataOracle true true (Json.obj [])).1).2
      ⟨VendorOp.taskadeRequest TaskadeRoute.listAgents.method TaskadeRoute.listAgents.url,
       Json.obj (("headers", Json.obj (TaskadeRoute.listAgents.headers "k")) ::
         objField "body" TaskadeRoute.listAgents.reqBody),
       Except.ok (Json.obj [("data", Json.str "payload")])⟩
      (List.mem_singleton.mpr rfl) (Json.obj [("data", Json.str "payload")]) rfl).2,
   ((uniform_envelope_amended ⟨true, true, some "k"⟩ .health hfOracle true true
      (Json.obj [("text", Json.str "long text")])).2.2.1).1 rfl,
   ((uniform_envelope_amended ⟨true, true, some "k"⟩ .health failOracle true true
      (Json.obj [])).2.2.2.1).2 (by decide)⟩

/-- C5 counterexample: `HuggingFaceService.summarizeText` succeeds
returning `result[0].summary_text`, a value that is neither the vendor
response's `result` payload nor its `data` payload (both are undefined
on the response) nor the raw response itself. -/
theorem service_return_counterexample :
    (HuggingFaceService.summarizeText "long text" "facebook/bart-large-cnn"
      (Json.obj []) hfOracle).result = .ok (some (Json.str "short summary")) ∧
    jsGet hfSampleResponse "result" = none ∧
    jsGet hfSampleResponse "data" = none ∧
    some (Json.str "short summary") ≠ some hfSampleResponse := by
  refine ⟨rfl, rfl, rfl, ?_⟩
  intro h
  exact Json.noConfusion (Option.some.inj h)

/-- C5 (amended): on success each service method returns the vendor
response as that method projects it — `zones.result` for the Cloudflare
methods, `result[0].summary_text` for `summarizeText`, and the full SDK
value for the GitLab methods — and on failure it logs and rethrows the
original error unchanged. -/
theorem service_return_amended (o : Oracle) :
    (∀ resp, o .cfZonesBrowse Json.null = .ok resp →
      (CloudflareService.getZones o).result = .ok (jsGet resp "result")) ∧
    (∀ e, o .cfZonesBrowse Json.null = .error e →
      (CloudflareService.getZones o).result = .error e ∧
      (CloudflareService.getZones o).log ≠ []) ∧
    (∀ text m p resp first, o .hfSummarization (hfSummarizationArgs text m p) = .ok resp →
      jsIndex resp 0 = some first →
      (HuggingFaceService.summarizeText text m p o).result =
        .ok (jsGet first "summary_text")) ∧
    (∀ text m p e, o .hfSummarization (hfSummarizationArgs text m p) = .error e →
      (HuggingFaceService.summarizeText text m p o).result = .error e ∧
      (HuggingFaceService.summarizeText text m p o).log ≠ []) ∧
    (∀ resp, o .glUsersCurrent Json.null = .ok resp →
      (GitlabService.getCurrentUser o).result = .ok (some resp)) ∧
    (∀ e, o .glUsersCurrent Json.null = .error e →
      (GitlabService.getCurrentUser o).result = .error e ∧
      (GitlabService.getCurrentUser o).log ≠ []) := by
  refine ⟨?_, ?_, ?_, ?_, ?_, ?_⟩
  · intro resp h
    simp [CloudflareService.getZones, vendorUnit, h]
  · intro e h
    constructor <;> simp [CloudflareService.getZones, vendorUnit, h]
  · intro text m p resp first h hidx
    simp only [hfSummarizationArgs] at h
    simp [HuggingFaceService.summarizeText, h, hidx]
  · intro text m p e h
    simp only [hfSummarizationArgs] at h
    constructor <;> simp [HuggingFaceService.summarizeText, h]
  · intro resp h
    simp [GitlabService.getCurrentUser, vendorUnit, h]
  · intro e h
    constructor <;> simp [GitlabService.getCurrentUser, vendorUnit, h]

/-- Witness for `service_return_amended`: the summarization projection on
a concrete response, a rethrown Cloudflare error, and a GitLab value
passed through whole. -/
theorem service_return_amended_witness :
    (HuggingFaceService.summarizeText "t" "m" (Json.obj []) hfOracle).result =
      .ok (some (Json.str "short summary")) ∧
    (CloudflareService.getZones failOracle).result =
      .error ⟨"boom", none, none⟩ ∧
    (GitlabService.getCurrentUser okOracle).result = .ok (some (Json.obj [])) :=
  ⟨(service_return_amended hfOracle).2.2.1 "t" "m" (Json.obj []) hfSampleResponse
     (Json.obj [("summary_text", Json.str "short summary")]) rfl rfl,
   ((service_return_amended failOracle).2.1 ⟨"boom", none, none⟩ rfl).1,
   (service_return_amended okOracle).2.2.2.2.1 (Json.obj []) rfl⟩

theorem taskadeErrStatus_spec (e : VendorError) :
    taskadeErrStatus e = 500 ∨ e.responseStatus = some (taskadeErrStatus e) := by
  unfold taskadeErrStatus
  cases e.responseStatus with
  | none => exact Or.inl rfl
  | some s =>
    by_cases hs : s = 0
    · subst hs; exact Or.inl rfl
    · right
      simp [hs]

/-- C1 counterexample: on POST /gemini/generate-document the Google-Docs
vendor call fails, yet the handler responds 200 with no error field in
the body — the failure is neither propagated as a 500 nor as the
vendor's status code. -/
theorem errors_propagated_counterexample :
    anyCallFailed (geminiGenerateDocumentHandler true genDocBody geminiOkDocsFailOracle) =
      true ∧
    (geminiGenerateDocumentHandler true genDocBody geminiOkDocsFailOracle).status = 200 ∧
    jsGet (geminiGenerateDocumentHandler true genDocBody geminiOkDocsFailOracle).body
      "error" = none :=
  ⟨rfl, rfl, rfl⟩

/-- C1 (amended): for every embedded route handler except
POST /gemini/generate-document, a failed vendor call is logged and
answered with HTTP 500 (or the vendor error's own response status) and
the error's message — or its axios response payload — under the `error`
key.  For /gemini/generate-document: a failure of the Gemini call
itself is propagated the same way, while a failure of the optional
Google-Doc step alone is swallowed — it is logged, and the handler still
responds 200 with `googleDoc: null` and no `error` field in the body. -/
theorem errors_propagated_amended (s : ServerState) (req : Req) (o : Oracle) :
    ((∀ b, req ≠ Req.geminiGenerateDocument b) →
      anyCallFailed (handleRequest s req o) = true →
      vendorFailureHandled (handleRequest s req o)) ∧
    (∀ b, req = Req.geminiGenerateDocument b →
      (geminiCallFailed (handleRequest s req o) = true →
        vendorFailureHandled (handleRequest s req o)) ∧
      (anyCallFailed (handleRequest s req o) = true →
        geminiCallFailed (handleRequest s req o) = false →
        ((handleRequest s req o).status = 200 ∧
         jsGet (handleRequest s req o).body "googleDoc" = some Json.null ∧
         jsGet (handleRequest s req o).body "error" = none ∧
         (handleRequest s req o).log ≠ []))) := by
  constructor
  · intro hne
    cases req with
    | geminiGenerateDocument b => exact absurd rfl (hne b)
    | health => intro h; exact Bool.noConfusion h
    | cfGetZones =>
      simp only [handleRequest, getCloudflareZonesHandler,
        CloudflareService.getZones, vendorUnit]
      cases s.cloudflareAvailable with
      | false => intro h; exact Bool.noConfusion h
      | true =>
        cases hz : o .cfZonesBrowse Json.null with
        | ok zones => intro h; exact Bool.noConfusion h
        | error e =>
          intro _
          exact ⟨by simp, ⟨.cfZonesBrowse, Json.null, .error e⟩, by simp, e, rfl,
            Or.inl rfl, Or.inl rfl⟩
    | cfCreateDNS z b =>
      simp only [handleRequest, createDNSRecordHandler,
        CloudflareService.createDNSRecord, vendorUnit]
      cases s.cloudflareAvailable with
      | false => intro h; exact Bool.noConfusion h
      | true =>
        by_cases hv : (jsvTruthy (jsGet b "type") && jsvTruthy (jsGet b "name") &&
            jsvTruthy (jsGet b "content")) = true
        · rw [if_pos hv]
          cases ha : o .cfDnsRecordsAdd (Json.arr [Json.str z, b]) with
          | ok record => intro h; exact Bool.noConfusion h
          | error e =>
            intro _
            exact ⟨by simp, ⟨.cfDnsRecordsAdd, Json.arr [Json.str z, b], .error e⟩,
              by simp, e, rfl, Or.inl rfl, Or.inl rfl⟩
        · rw [if_neg hv]
          intro h
          exact Bool.noConfusion h
    | cfPurgeCache z b =>
      simp only [handleRequest, purgeCacheHandler,
        CloudflareService.purgeCache, vendorUnit]
      cases s.cloudflareAvailable with
      | false => intro h; exact Bool.noConfusion h
      | true =>
        cases hp : o .cfZonesPurgeCache
            (Json.arr [Json.str z, purgeCacheData (jsGet b "files")]) with
        | ok result => intro h; exact Bool.noConfusion h
        | error e =>
          intro _
          exact ⟨by simp,
            ⟨.cfZonesPurgeCache, Json.arr [Json.str z, purgeCacheData (jsGet b "files")],
              .error e⟩, by simp, e, rfl, Or.inl rfl, Or.inl rfl⟩
    | taskadeAgents r =>
      simp only [handleRequest]
      cases s.taskadeApiKey with
      | none => intro h; exact Bool.noConfusion h
      | some k =>
        by_cases hk : k = ""
        · subst hk
          intro h
          exact Bool.noConfusion h
        · simp only [taskadeAgentsHandler]
          rw [if_neg hk]
          cases htk : o (VendorOp.taskadeRequest r.method r.url)
              (Json.obj (("headers", Json.obj (r.headers k)) ::
                objField "body" r.reqBody)) with
          | ok resp => intro h; exact Bool.noConfusion h
          | error e =>
            intro _
            exact ⟨by simp,
              ⟨VendorOp.taskadeRequest r.method r.url,
                Json.obj (("headers", Json.obj (r.headers k)) ::
                  objField "body" r.reqBody), .error e⟩,
              by simp, e, rfl, taskadeErrStatus_spec e, Or.inr rfl⟩
    | geminiAnalyze b =>
      simp only [handleRequest, geminiAnalyzeHandler,
        GeminiService.analyzeContent, vendorUnit]
      cases s.geminiAvailable with
      | false => intro h; exact Bool.noConfusion h
      | true =>
        by_cases ht : jsvTruthy (jsGet b "text") = true
        · rw [if_pos ht]
          cases hga : o .gmGenerateContent (Json.str (GeminiService.analysisPrompt
              (jsToDisplayString (Option.getD (jsGet b "text") Json.null))
              (Option.getD (jsGet b "analysisType") (Json.str "summary")))) with
          | ok resp => intro h; exact Bool.noConfusion h
          | error e =>
            intro _
            exact ⟨by simp,
              ⟨.gmGenerateContent, Json.str (GeminiService.analysisPrompt
                (jsToDisplayString (Option.getD (jsGet b "text") Json.null))
                (Option.getD (jsGet b "analysisType") (Json.str "summary"))), .error e⟩,
              by simp, e, rfl, Or.inl rfl, Or.inl rfl⟩
        · rw [if_neg ht]
          intro h
          exact Bool.noConfusion h
  · intro b hb
    subst hb
    simp only [handleRequest, geminiGenerateDocumentHandler,
      GeminiService.generateDocumentContent, vendorUnit,
      generateDocumentGoogleDocBlock, GoogleDocsService.createDocument,
      GoogleDocsService.createDocumentLastDef, GoogleDocsService.insertText,
      GoogleDocsService.updateDocument]
    cases s.geminiAvailable with
    | false =>
      exact ⟨fun hgm => Bool.noConfusion hgm, fun h _ => Bool.noConfusion h⟩
    | true =>
      by_cases ht : jsvTruthy (jsGet b "topic") = true
      · rw [if_pos ht]
        cases hgm : o .gmGenerateContent (Json.str (GeminiService.documentPrompt
            (Option.getD (jsGet b "topic") Json.null)
            (Option.getD (jsGet b "contentType") (Json.str "article"))
            (Option.getD (jsGet b "length") (Json.str "medium")))) with
        | error e =>
          refine ⟨fun _ => ⟨by simp,
            ⟨.gmGenerateContent, Json.str (GeminiService.documentPrompt
              (Option.getD (jsGet b "topic") Json.null)
              (Option.getD (jsGet b "contentType") (Json.str "article"))
              (Option.getD (jsGet b "length") (Json.str "medium"))), .error e⟩,
            by simp, e, rfl, Or.inl rfl, Or.inl rfl⟩, fun _ hgm => ?_⟩
          exact Bool.noConfusion hgm
        | ok resp =>
          simp only []
          by_cases hcg : jsTruthy (Option.getD (jsGet b "createGoogleDoc")
              (Json.bool false)) = true
          · rw [if_pos hcg]
            cases hcd : o .gdDocumentsCreate (Json.obj [("requestBody", Json.obj
                [("title", jsOrElse (jsGet b "documentTitle")
                  (Json.str ("AI Generated: " ++
                    jsToDisplayString (Option.getD (jsGet b "topic") Json.null))))])]) with
            | error e2 =>
              exact ⟨fun hgm => Bool.noConfusion hgm,
                fun _ _ => ⟨rfl, rfl, rfl, by simp⟩⟩
            | ok respD =>
              simp only []
              cases hdata : jsGet respD "data" with
              | none =>
                exact ⟨fun hgm => Bool.noConfusion hgm,
                  fun _ _ => ⟨rfl, rfl, rfl, by simp⟩⟩
              | some doc =>
                simp only []
                cases hbu : o .gdDocumentsBatchUpdate (Json.obj
                    [("documentId", Option.getD (jsGet doc "documentId") Json.null),
                     ("requestBody", Json.obj [("requests", Json.arr [Json.obj
                       [("insertText", Json.obj [("location", Json.obj
                         [("index", Json.num 1)]),
                        ("text", Option.getD (some resp) Json.null)])]])])]) with
                | error e3 =>
                  exact ⟨fun hgm => Bool.noConfusion hgm,
                    fun _ _ => ⟨rfl, rfl, rfl, by simp⟩⟩
                | ok r3 =>
                  exact ⟨fun hgm => Bool.noConfusion hgm,
                    fun h _ => Bool.noConfusion h⟩
          · rw [if_neg hcg]
            exact ⟨fun hgm => Bool.noConfusion hgm, fun h _ => Bool.noConfusion h⟩
      · rw [if_neg ht]
        exact ⟨fun hgm => Bool.noConfusion hgm, fun h _ => Bool.noConfusion h⟩

/-- Witness for `errors_propagated_amended`: a failing Cloudflare zones
call leaves the log non-empty; on generate-document, a failing Gemini
call also leaves the log non-empty (through the propagation clause),
and a failing Google-Docs call still yields 200 with `googleDoc: null`,
no `error` field, and a non-empty log. -/
theorem errors_propagated_amended_witness :
    (handleRequest ⟨true, true, some "k"⟩ .cfGetZones failOracle).log ≠ [] ∧
    (handleRequest ⟨true, true, some "k"⟩ (.geminiGenerateDocument genDocBody)
      failOracle).log ≠ [] ∧
    ((handleRequest ⟨true, true, some "k"⟩ (.geminiGenerateDocument genDocBody)
       geminiOkDocsFailOracle).status = 200 ∧
     jsGet (handleRequest ⟨true, true, some "k"⟩ (.geminiGenerateDocument genDocBody)
       geminiOkDocsFailOracle).body "googleDoc" = some Json.null ∧
     jsGet (handleRequest ⟨true, true, some "k"⟩ (.geminiGenerateDocument genDocBody)
       geminiOkDocsFailOracle).body "error" = none ∧
     (handleRequest ⟨true, true, some "k"⟩ (.geminiGenerateDocument genDocBody)
       geminiOkDocsFailOracle).log ≠ []) :=
  ⟨(((errors_propagated_amended ⟨true, true, some "k"⟩ .cfGetZones failOracle).1
      (fun b h => Req.noConfusion h)) (by decide)).1,
   (((errors_propagated_amended ⟨true, true, some "k"⟩
       (.geminiGenerateDocument genDocBody) failOracle).2 genDocBody rfl).1
      (by decide)).1,
   ((errors_propagated_amended ⟨true, true, some "k"⟩
       (.geminiGenerateDocument genDocBody) geminiOkDocsFailOracle).2 genDocBody rfl).2
      (by decide) (by decide)⟩

/-- C4 counterexample: POST /gemini/generate-document reports
`success: true` with a 200 status even though one of the vendor calls it
made (the Google Docs batch update) failed. -/
theorem single_shot_counterexample :
    jsGet (geminiGenerateDocumentHandler true genDocInsertBody docsInsertFailOracle).body
      "success" = some (Json.bool true) ∧
    (geminiGenerateDocumentHandler true genDocInsertBody docsInsertFailOracle).status =
      200 ∧
    anyCallFailed (geminiGenerateDocumentHandler true genDocInsertBody
      docsInsertFailOracle) = true :=
  ⟨rfl, rfl, rfl⟩

/-- C4 (amended): every handler invokes each vendor operation at most
once per request — no retry, no backoff, including the show-then-edit-or-
create sequence of `GitlabService.createOrUpdateFile` — and every handler
except POST /gemini/generate-document never reports success after a
failed vendor call.  On generate-document, a failure of the Gemini call
yields a 500 with no success field, while a failed vendor call with the
Gemini call intact (the optional Google-Doc step) still reports
`success: true` at status 200, with `googleDoc: null`. -/
theorem single_shot_amended (s : ServerState) (req : Req) (o : Oracle)
    (projectId filePath content commitMessage branch : String) :
    ((handleRequest s req o).calls.map Call.op).Nodup ∧
    ((GitlabService.createOrUpdateFile projectId filePath content commitMessage
      branch o).calls.map Call.op).Nodup ∧
    ((∀ b, req ≠ Req.geminiGenerateDocument b) →
      anyCallFailed (handleRequest s req o) = true →
      jsGet (handleRequest s req o).body "success" = none) ∧
    (∀ b, req = Req.geminiGenerateDocument b →
      (geminiCallFailed (handleRequest s req o) = true →
        (handleRequest s req o).status = 500 ∧
        jsGet (handleRequest s req o).body "success" = none) ∧
      (anyCallFailed (handleRequest s req o) = true →
        geminiCallFailed (handleRequest s req o) = false →
        ((handleRequest s req o).status = 200 ∧
         jsGet (handleRequest s req o).body "success" = some (Json.bool true) ∧
         jsGet (handleRequest s req o).body "googleDoc" = some Json.null))) := by
  refine ⟨?_, ?_, ?_, ?_⟩
  · cases req with
    | health => simp [handleRequest, healthHandler]
    | cfGetZones =>
      simp only [handleRequest, getCloudflareZonesHandler,
        CloudflareService.getZones, vendorUnit]
      cases s.cloudflareAvailable with
      | false => simp
      | true => cases o .cfZonesBrowse Json.null <;> simp
    | cfCreateDNS z b =>
      simp only [handleRequest, createDNSRecordHandler,
        CloudflareService.createDNSRecord, vendorUnit]
      cases s.cloudflareAvailable with
      | false => simp
      | true =>
        by_cases hv : (jsvTruthy (jsGet b "type") && jsvTruthy (jsGet b "name") &&
            jsvTruthy (jsGet b "content")) = true
        · rw [if_pos hv]
          cases o .cfDnsRecordsAdd (Json.arr [Json.str z, b]) <;> simp
        · rw [if_neg hv]; simp
    | cfPurgeCache z b =>
      simp only [handleRequest, purgeCacheHandler,
        CloudflareService.purgeCache, vendorUnit]
      cases s.cloudflareAvailable with
      | false => simp
      | true =>
        cases o .cfZonesPurgeCache
          (Json.arr [Json.str z, purgeCacheData (jsGet b "files")]) <;> simp
    | taskadeAgents r =>
      simp only [handleRequest]
      cases s.taskadeApiKey with
      | none => simp [taskadeAgentsHandler, authFailureOutput]
      | some k =>
        by_cases hk : k = ""
        · subst hk
          simp [taskadeAgentsHandler, authFailureOutput]
        · simp only [taskadeAgentsHandler]
          rw [if_neg hk]
          cases o (VendorOp.taskadeRequest r.method r.url)
            (Json.obj (("headers", Json.obj (r.headers k)) ::
              objField "body" r.reqBody)) <;> simp
    | geminiAnalyze b =>
      simp only [handleRequest, geminiAnalyzeHandler,
        GeminiService.analyzeContent, vendorUnit]
      cases s.geminiAvailable with
      | false => simp
      | true =>
        by_cases ht : jsvTruthy (jsGet b "text") = true
        · rw [if_pos ht]
          cases o .gmGenerateContent (Json.str (GeminiService.analysisPrompt
            (jsToDisplayString (Option.getD (jsGet b "text") Json.null))
            (Option.getD (jsGet b "analysisType") (Json.str "summary")))) <;> simp
        · rw [if_neg ht]; simp
    | geminiGenerateDocument b =>
      simp only [handleRequest, geminiGenerateDocumentHandler,
        GeminiService.generateDocumentContent, vendorUnit,
        generateDocumentGoogleDocBlock, GoogleDocsService.createDocument,
        GoogleDocsService.createDocumentLastDef, GoogleDocsService.insertText,
        GoogleDocsService.updateDocument]
      cases s.geminiAvailable with
      | false => simp
      | true =>
        by_cases ht : jsvTruthy (jsGet b "topic") = true
        · rw [if_pos ht]
          cases hgm : o .gmGenerateContent (Json.str (GeminiService.documentPrompt
              (Option.getD (jsGet b "topic") Json.null)
              (Option.getD (jsGet b "contentType") (Json.str "article"))
              (Option.getD (jsGet b "length") (Json.str "medium")))) with
          | error e => simp
          | ok resp =>
            simp only []
            by_cases hcg : jsTruthy (Option.getD (jsGet b "createGoogleDoc")
                (Json.bool false)) = true
            · rw [if_pos hcg]
              cases hcd : o .gdDocumentsCreate (Json.obj [("requestBody", Json.obj
                  [("title", jsOrElse (jsGet b "documentTitle")
                    (Json.str ("AI Generated: " ++
                      jsToDisplayString (Option.getD (jsGet b "topic") Json.null))))])]) with
              | error e2 => simp
              | ok respD =>
                simp only []
                cases hdata : jsGet respD "data" with
                | none => simp
                | some doc =>
                  simp only []
                  cases hbu : o .gdDocumentsBatchUpdate (Json.obj
                      [("documentId", Option.getD (jsGet doc "documentId") Json.null),
                       ("requestBody", Json.obj [("requests", Json.arr [Json.obj
                         [("insertText", Json.obj [("location", Json.obj
                           [("index", Json.num 1)]),
                          ("text", Option.getD (some resp) Json.null)])]])])]) with
                  | error e3 => simp
                  | ok r3 => simp
            · rw [if_neg hcg]; simp
        · rw [if_neg ht]; simp
  · simp only [GitlabService.createOrUpdateFile]
    cases o .glRepositoryFilesShow
        (Json.arr [Json.str projectId, Json.str filePath, Json.str branch]) with
    | ok showResp =>
      cases o .glRepositoryFilesEdit (Json.arr [Json.str projectId, Json.str filePath,
          Json.obj [("file_path", Json.str filePath), ("branch", Json.str branch),
            ("content", Json.str content),
            ("commit_message", Json.str commitMessage)]]) with
      | ok result => simp
      | error e1 =>
        cases o .glRepositoryFilesCreate (Json.arr [Json.str projectId,
            Json.str filePath,
            Json.obj [("file_path", Json.str filePath), ("branch", Json.str branch),
              ("content", Json.str content),
              ("commit_message", Json.str commitMessage)]]) <;> simp
    | error e0 =>
      cases o .glRepositoryFilesCreate (Json.arr [Json.str projectId,
          Json.str filePath,
          Json.obj [("file_path", Json.str filePath), ("branch", Json.str branch),
            ("content", Json.str content),
            ("commit_message", Json.str commitMessage)]]) <;> simp
  · intro hne
    cases req with
    | geminiGenerateDocument b => exact absurd rfl (hne b)
    | health => intro h; exact Bool.noConfusion h
    | cfGetZones =>
      simp only [handleRequest, getCloudflareZonesHandler,
        CloudflareService.getZones, vendorUnit]
      cases s.cloudflareAvailable with
      | false => intro h; exact Bool.noConfusion h
      | true =>
        cases hz : o .cfZonesBrowse Json.null with
        | ok zones => intro h; exact Bool.noConfusion h
        | error e => intro _; rfl
    | cfCreateDNS z b =>
      simp only [handleRequest, createDNSRecordHandler,
        CloudflareService.createDNSRecord, vendorUnit]
      cases s.cloudflareAvailable with
      | false => intro h; exact Bool.noConfusion h
      | true =>
        by_cases hv : (jsvTruthy (jsGet b "type") && jsvTruthy (jsGet b "name") &&
            jsvTruthy (jsGet b "content")) = true
        · rw [if_pos hv]
          cases ha : o .cfDnsRecordsAdd (Json.arr [Json.str z, b]) with
          | ok record => intro h; exact Bool.noConfusion h
          | error e => intro _; rfl
        · rw [if_neg hv]
          intro h
          exact Bool.noConfusion h
    | cfPurgeCache z b =>
      simp only [handleRequest, purgeCacheHandler,
        CloudflareService.purgeCache, vendorUnit]
      cases s.cloudflareAvailable with
      | false => intro h; exact Bool.noConfusion h
      | true =>
        cases hp : o .cfZonesPurgeCache
            (Json.arr [Json.str z, purgeCacheData (jsGet b "files")]) with
        | ok result => intro h; exact Bool.noConfusion h
        | error e => intro _; rfl
    | taskadeAgents r =>
      simp only [handleRequest]
      cases s.taskadeApiKey with
      | none => intro h; exact Bool.noConfusion h
      | some k =>
        by_cases hk : k = ""
        · subst hk
          intro h
          exact Bool.noConfusion h
        · simp only [taskadeAgentsHandler]
          rw [if_neg hk]
          cases htk : o (VendorOp.taskadeRequest r.method r.url)
              (Json.obj (("headers", Json.obj (r.headers k)) ::
                objField "body" r.reqBody)) with
          | ok resp => intro h; exact Bool.noConfusion h
          | error e => intro _; rfl
    | geminiAnalyze b =>
      simp only [handleRequest, geminiAnalyzeHandler,
        GeminiService.analyzeContent, vendorUnit]
      cases s.geminiAvailable with
      | false => intro h; exact Bool.noConfusion h
      | true =>
        by_cases ht : jsvTruthy (jsGet b "text") = true
        · rw [if_pos ht]
          cases hga : o .gmGenerateContent (Json.str (GeminiService.analysisPrompt
              (jsToDisplayString (Option.getD (jsGet b "text") Json.null))
              (Option.getD (jsGet b "analysisType") (Json.str "summary")))) with
          | ok resp => intro h; exact Bool.noConfusion h
          | error e => intro _; rfl
        · rw [if_neg ht]
          intro h
          exact Bool.noConfusion h
  · intro b hb
    subst hb
    simp only [handleRequest, geminiGenerateDocumentHandler,
      GeminiService.generateDocumentContent, vendorUnit,
      generateDocumentGoogleDocBlock, GoogleDocsService.createDocument,
      GoogleDocsService.createDocumentLastDef, GoogleDocsService.insertText,
      GoogleDocsService.updateDocument]
    cases s.geminiAvailable with
    | false =>
      exact ⟨fun hgm => Bool.noConfusion hgm, fun h _ => Bool.noConfusion h⟩
    | true =>
      by_cases ht : jsvTruthy (jsGet b "topic") = true
      · rw [if_pos ht]
        cases hgm : o .gmGenerateContent (Json.str (GeminiService.documentPrompt
            (Option.getD (jsGet b "topic") Json.null)
            (Option.getD (jsGet b "contentType") (Json.str "article"))
            (Option.getD (jsGet b "length") (Json.str "medium")))) with
        | error e =>
          exact ⟨fun _ => ⟨rfl, rfl⟩, fun _ hgm => Bool.noConfusion hgm⟩
        | ok resp =>
          simp only []
          by_cases hcg : jsTruthy (Option.getD (jsGet b "createGoogleDoc")
              (Json.bool false)) = true
          · rw [if_pos hcg]
            cases hcd : o .gdDocumentsCreate (Json.obj [("requestBody", Json.obj
                [("title", jsOrElse (jsGet b "documentTitle")
                  (Json.str ("AI Generated: " ++
                    jsToDisplayString (Option.getD (jsGet b "topic") Json.null))))])]) with
            | error e2 =>
              exact ⟨fun hgm => Bool.noConfusion hgm, fun _ _ => ⟨rfl, rfl, rfl⟩⟩
            | ok respD =>
              simp only []
              cases hdata : jsGet respD "data" with
              | none =>
                exact ⟨fun hgm => Bool.noConfusion hgm, fun _ _ => ⟨rfl, rfl, rfl⟩⟩
              | some doc =>
                simp only []
                cases hbu : o .gdDocumentsBatchUpdate (Json.obj
                    [("documentId", Option.getD (jsGet doc "documentId") Json.null),
                     ("requestBody", Json.obj [("requests", Json.arr [Json.obj
                       [("insertText", Json.obj [("location", Json.obj
                         [("index", Json.num 1)]),
                        ("text", Option.getD (some resp) Json.null)])]])])]) with
                | error e3 =>
                  exact ⟨fun hgm => Bool.noConfusion hgm,
                    fun _ _ => ⟨rfl, rfl, rfl⟩⟩
                | ok r3 =>
                  exact ⟨fun hgm => Bool.noConfusion hgm,
                    fun h _ => Bool.noConfusion h⟩
          · rw [if_neg hcg]
            exact ⟨fun hgm => Bool.noConfusion hgm, fun h _ => Bool.noConfusion h⟩
      · rw [if_neg ht]
        exact ⟨fun hgm => Bool.noConfusion hgm, fun h _ => Bool.noConfusion h⟩

/-- Witness for `single_shot_amended`: the failing zones request still
reports no success and its vendor-operation list has no duplicates; on
generate-document, a failing Gemini call yields a 500 with no success
field, and a failing Google-Docs batch update still yields 200 with
`success: true` and `googleDoc: null`. -/
theorem single_shot_amended_witness :
    jsGet (handleRequest ⟨true, true, some "k"⟩ .cfGetZones failOracle).body
      "success" = none ∧
    ((handleRequest ⟨true, true, some "k"⟩ .cfGetZones failOracle).calls.map
      Call.op).Nodup ∧
    ((handleRequest ⟨true, true, some "k"⟩ (.geminiGenerateDocument genDocInsertBody)
       failOracle).status = 500 ∧
     jsGet (handleRequest ⟨true, true, some "k"⟩
       (.geminiGenerateDocument genDocInsertBody) failOracle).body "success" = none) ∧
    ((handleRequest ⟨true, true, some "k"⟩ (.geminiGenerateDocument genDocInsertBody)
       docsInsertFailOracle).status = 200 ∧
     jsGet (handleRequest ⟨true, true, some "k"⟩
       (.geminiGenerateDocument genDocInsertBody) docsInsertFailOracle).body
       "success" = some (Json.bool true) ∧
     jsGet (handleRequest ⟨true, true, some "k"⟩
       (.geminiGenerateDocument genDocInsertBody) docsInsertFailOracle).body
       "googleDoc" = some Json.null) :=
  ⟨(single_shot_amended ⟨true, true, some "k"⟩ .cfGetZones failOracle
     "p" "f" "c" "m" "main").2.2.1 (fun b h => Req.noConfusion h) (by decide),
   (single_shot_amended ⟨true, true, some "k"⟩ .cfGetZones failOracle
     "p" "f" "c" "m" "main").1,
   ((single_shot_amended ⟨true, true, some "k"⟩
      (.geminiGenerateDocument genDocInsertBody) failOracle
      "p" "f" "c" "m" "main").2.2.2 genDocInsertBody rfl).1 (by decide),
   ((single_shot_amended ⟨true, true, some "k"⟩
      (.geminiGenerateDocument genDocInsertBody) docsInsertFailOracle
      "p" "f" "c" "m" "main").2.2.2 genDocInsertBody rfl).2 (by decide) (by decide)⟩

/-- Witness for `createDocument_shadowing`: the single call recorded for
a concrete POST /google-docs/create run is not a permission grant. -/
theorem createDocument_shadowing_witness :
    (⟨VendorOp.gdDocumentsCreate,
      Json.obj [("requestBody", Json.obj [("title", Json.str "Untitled Document")])],
      Except.ok (Json.obj [])⟩ : Call).op ≠ VendorOp.gdPermissionsCreate :=
  createDocument_shadowing.2.2.2 (Json.obj []) okOracle _ (List.mem_singleton.mpr rfl)
